import Mathlib

/-!
Verification of the KYC validation layer (`app/validator.py`).

The validator works on loosely-typed nested records (Python dicts produced by
an extraction step).  We embed those records as the inductive type `Value`
(Python `None`/`bool`/numbers/`str`/`list`/`dict`), embed the dynamic
operations the validator performs on them (`dict.get`, truthiness, `or`,
arithmetic, comparisons, item assignment), and embed each method of
`KYCValidator` as a function over this type.  Python numbers are modelled as
exact rationals (`ℚ`); operations that can raise a Python exception
(`AttributeError`, `TypeError`, `ZeroDivisionError`) return `Except String`.
-/

namespace KYCValidator

/-- A Python value as it occurs in the extracted KYC records: `None`, `bool`,
`int`/`float` (modelled as an exact rational), `str`, `list`, or `dict`
(modelled as an insertion-ordered association list, as Python dicts are
insertion-ordered and duplicate-free). -/
inductive Value : Type where
  | null : Value
  | bool : Bool → Value
  | num : ℚ → Value
  | str : String → Value
  | list : List Value → Value
  | dict : List (String × Value) → Value

/-- A Python dict with string keys (the shape of every record the validator
touches). -/
abbrev Dict := List (String × Value)

mutual

/-- Structural equality on values (used by the embedding of Python `==` for
containers; the validator itself only ever compares against string
constants). -/
def beqValue : Value → Value → Bool
  | .null, .null => true
  | .bool a, .bool b => a == b
  | .num a, .num b => a == b
  | .str a, .str b => a == b
  | .list as, .list bs => beqListV as bs
  | .dict as, .dict bs => beqDictV as bs
  | _, _ => false

def beqListV : List Value → List Value → Bool
  | [], [] => true
  | a :: as, b :: bs => beqValue a b && beqListV as bs
  | _, _ => false

def beqDictV : List (String × Value) → List (String × Value) → Bool
  | [], [] => true
  | (k, a) :: as, (l, b) :: bs => k == l && beqValue a b && beqDictV as bs
  | _, _ => false

end

/-- First value stored under key `k`, if any (Python dict lookup; Python dicts
cannot hold a key twice, so taking the first binding is exact). -/
def dictFind? (es : Dict) (k : String) : Option Value :=
  (es.find? (fun p => p.1 == k)).map (fun p => p.2)

/-- Python `d.get(k, default)` on a dict: the stored value when the key is
present (even when that value is `None`), the default otherwise. -/
def dGetD (es : Dict) (k : String) (d : Value) : Value :=
  (dictFind? es k).getD d

/-- Python `d[k] = v` on a dict: replaces the value at an existing key in
place, otherwise appends the new binding at the end (insertion order). -/
def dictSet : Dict → String → Value → Dict
  | [], k, v => [(k, v)]
  | p :: es, k, v => if p.1 == k then (k, v) :: es else p :: dictSet es k v

/-- Python truthiness: `None`, `False`, `0`, `""`, `[]` and an empty dict are
falsy, everything else is truthy. -/
def truthy : Value → Bool
  | .null => false
  | .bool b => b
  | .num q => decide (q ≠ 0)
  | .str s => s ≠ ""
  | .list vs => !vs.isEmpty
  | .dict es => !es.isEmpty

/-- Python `a or b`. -/
def pyOr (a b : Value) : Value := if truthy a then a else b

/-- The numeric content of a value, when Python arithmetic/comparisons accept
it: numbers are themselves and `bool` is an `int` subtype (`True` is `1`). -/
def asNum? : Value → Option ℚ
  | .num q => some q
  | .bool b => some (if b then 1 else 0)
  | _ => none

/-- Error message used for `.get` on a value that is not a dict (Python
raises `AttributeError`, e.g. when a whole section of the record is `None` or
a string). -/
def attrGetMsg : String := "AttributeError: object has no attribute get"

def typeAddMsg : String := "TypeError: unsupported operand type(s) for +"

def typeCmpMsg : String := "TypeError: comparison not supported between instances"

def typeSubMsg : String := "TypeError: unsupported operand type(s) for -"

def typeMulMsg : String := "TypeError: unsupported operand type(s) for *"

def typeDivMsg : String := "TypeError: unsupported operand type(s) for /"

def zeroDivMsg : String := "ZeroDivisionError: division by zero"

def itemAssignMsg : String := "TypeError: object does not support item assignment"

def attrSplitMsg : String := "AttributeError: object has no attribute split"

/-- `v` viewed as a dict, or the `AttributeError` that Python's `v.get(...)`
raises when `v` is not a dict. -/
def asDict : Value → Except String Dict
  | .dict es => .ok es
  | _ => .error attrGetMsg

/-- Python `v.get(k)` (default `None`). -/
def pyGet (v : Value) (k : String) : Except String Value := do
  let es ← asDict v
  pure (dGetD es k .null)

/-- Python `v.get(k, d)`. -/
def pyGetD (v : Value) (k : String) (d : Value) : Except String Value := do
  let es ← asDict v
  pure (dGetD es k d)

/-- Rational addition, computed on numerator/denominator (equal to `+` on
`ℚ`, see `qAdd_eq`). -/
def qAdd (a b : ℚ) : ℚ := mkRat (a.num * b.den + b.num * a.den) (a.den * b.den)

/-- Rational subtraction on numerator/denominator. -/
def qSub (a b : ℚ) : ℚ := mkRat (a.num * b.den - b.num * a.den) (a.den * b.den)

/-- Rational multiplication on numerator/denominator. -/
def qMul (a b : ℚ) : ℚ := mkRat (a.num * b.num) (a.den * b.den)

/-- Rational division on numerator/denominator. -/
def qDiv (a b : ℚ) : ℚ := Rat.divInt (a.num * b.den) ((a.den : Int) * b.num)

theorem qAdd_eq (a b : ℚ) : qAdd a b = a + b := (Rat.add_def' a b).symm

theorem qSub_eq (a b : ℚ) : qSub a b = a - b := (Rat.sub_def' a b).symm

theorem qMul_eq (a b : ℚ) : qMul a b = a * b := by
  rw [qMul, Rat.mul_def, Rat.normalize_eq_mkRat]

theorem qDiv_eq (a b : ℚ) : qDiv a b = a / b := (Rat.div_def' a b).symm

/-- Python `a + b` for the value shapes the validator can feed it: numbers
(incl. `bool`) add numerically, strings and lists concatenate, anything else
raises `TypeError`. -/
def pyAdd (a b : Value) : Except String Value :=
  match asNum? a, asNum? b with
  | some x, some y => .ok (.num (qAdd x y))
  | _, _ =>
    match a, b with
    | .str x, .str y => .ok (.str (x ++ y))
    | .list x, .list y => .ok (.list (x ++ y))
    | _, _ => .error typeAddMsg

/-- Python `a - b`: numeric only. -/
def pySub (a b : Value) : Except String Value :=
  match asNum? a, asNum? b with
  | some x, some y => .ok (.num (qSub x y))
  | _, _ => .error typeSubMsg

/-- Python `a * b` for numeric operands (sequence repetition is not reachable
in the validator: the only multiplication is `(amount / nfa) * 100`). -/
def pyMul (a b : Value) : Except String Value :=
  match asNum? a, asNum? b with
  | some x, some y => .ok (.num (qMul x y))
  | _, _ => .error typeMulMsg

/-- Python `a / b`: true division of numbers; division by zero raises. -/
def pyDiv (a b : Value) : Except String Value :=
  match asNum? a, asNum? b with
  | some x, some y => if y = 0 then .error zeroDivMsg else .ok (.num (qDiv x y))
  | _, _ => .error typeDivMsg

/-- Code-point-wise `≤` on character lists (Python string comparison). -/
def charsLe : List Char → List Char → Bool
  | _ :: _, [] => false
  | [], _ => true
  | x :: xs, y :: ys =>
    if x = y then charsLe xs ys else decide (x.toNat < y.toNat)

/-- Python `a >= b` for the operand shapes that can reach a comparison here:
numbers (incl. `bool`) compare numerically, strings lexicographically,
mixed/other types raise `TypeError`. -/
def pyGE (a b : Value) : Except String Bool :=
  match asNum? a, asNum? b with
  | some x, some y => .ok (decide (y ≤ x))
  | _, _ =>
    match a, b with
    | .str x, .str y => .ok (charsLe y.toList x.toList)
    | _, _ => .error typeCmpMsg

/-- Python `a > b`. -/
def pyGT (a b : Value) : Except String Bool :=
  match asNum? a, asNum? b with
  | some x, some y => .ok (decide (y < x))
  | _, _ =>
    match a, b with
    | .str x, .str y => .ok (!charsLe x.toList y.toList)
    | _, _ => .error typeCmpMsg

/-- Python `a < b`. -/
def pyLT (a b : Value) : Except String Bool :=
  match asNum? a, asNum? b with
  | some x, some y => .ok (decide (x < y))
  | _, _ =>
    match a, b with
    | .str x, .str y => .ok (!charsLe y.toList x.toList)
    | _, _ => .error typeCmpMsg

/-- Python `a == b` (never raises).  Numbers and booleans compare numerically
across types; containers are compared structurally (the validator only ever
compares against string constants, where this is exact). -/
def pyEq (a b : Value) : Bool :=
  match asNum? a, asNum? b with
  | some x, some y => decide (x = y)
  | _, _ =>
    match a, b with
    | .null, .null => true
    | .str x, .str y => x == y
    | .list as, .list bs => beqListV as bs
    | .dict as, .dict bs => beqDictV as bs
    | _, _ => false

/-- Python `v is None`. -/
def isNone : Value → Bool
  | .null => true
  | _ => false

/-- `str.split(sep)` on character lists with an accumulator (faithful to
Python: `"".split(".") == [""]`, empty segments are kept). -/
def splitChAux (sep : Char) : List Char → List Char → List String
  | [], acc => [String.mk acc.reverse]
  | c :: cs, acc =>
    if c = sep then String.mk acc.reverse :: splitChAux sep cs []
    else splitChAux sep cs (c :: acc)

/-- Python `s.split(sep)` for a single-character separator. -/
def splitCh (sep : Char) (s : String) : List String := splitChAux sep s.toList []

/-- Split a dotted field path, as `path.split(".")` does. -/
def splitPath (s : String) : List String := splitCh '.' s

def digitChar (n : Nat) : Char := Char.ofNat (48 + n)

/-- Decimal digits of `n`, least significant first (`fuel ≥` digit count). -/
def natCharsRev : Nat → Nat → List Char
  | 0, _ => []
  | f + 1, n =>
    if n < 10 then [digitChar n] else digitChar (n % 10) :: natCharsRev f (n / 10)

def natToString (n : Nat) : String := String.mk (natCharsRev (n + 1) n).reverse

def intToString (i : Int) : String :=
  if i < 0 then "-" ++ natToString i.natAbs else natToString i.natAbs

/-- Insert a thousands separator every three digits, working on the reversed
digit list. -/
def groupRev : List Char → List Char
  | a :: b :: c :: d :: rest => a :: b :: c :: ',' :: groupRev (d :: rest)
  | l => l

/-- `format(n, ",")` for a natural number. -/
def fmtCommaNat (n : Nat) : String := String.mk (groupRev (natCharsRev (n + 1) n)).reverse

/-- Decimal expansion digits of `r / den` (with `0 ≤ r < den`), stopping when
the remainder is exhausted or after `fuel` digits.  Exact for the terminating
decimals the validator produces; the shortest-roundtrip repr CPython uses for
floats is approximated by a 17-digit cap. -/
def fracChars (den : Nat) : Nat → Nat → List Char
  | _, 0 => []
  | r, f + 1 =>
    if r = 0 then [] else digitChar (r * 10 / den) :: fracChars den (r * 10 % den) f

/-- Python `format(v, ",")` for a number `v`: thousands-separated integral
part, and the fractional part when `v` is not integral.  (Integral inputs —
the only ones the spec and tests exercise — match CPython exactly.) -/
def fmtComma (q : ℚ) : String :=
  let sign := if q.num < 0 then "-" else ""
  let n := q.num.natAbs
  let ip := n / q.den
  let r := n % q.den
  if r = 0 then sign ++ fmtCommaNat ip
  else sign ++ fmtCommaNat ip ++ "." ++ String.mk (fracChars q.den r 17)

/-- Python `str(v)` for a number (integral values exact; a float's trailing
`.0` is not modelled since `Value.num` does not distinguish int from float). -/
def pyStrNum (q : ℚ) : String :=
  let sign := if q.num < 0 then "-" else ""
  let n := q.num.natAbs
  let ip := n / q.den
  let r := n % q.den
  if r = 0 then sign ++ natToString ip
  else sign ++ natToString ip ++ "." ++ String.mk (fracChars q.den r 17)

/-- Python `str(v)` / f-string interpolation of a value (container reprs
abbreviated; the validator only interpolates scalars in practice). -/
def pyStrValue : Value → String
  | .null => "None"
  | .bool b => if b then "True" else "False"
  | .num q => pyStrNum q
  | .str s => s
  | .list _ => "[...]"
  | .dict _ => "[dict]"

/-- `f"{v:,}"`: thousands-separated rendering of an interpolated value. -/
def fmtCommaV (v : Value) : String :=
  match asNum? v with
  | some q => fmtComma q
  | none => pyStrValue v

/-- `f"{q:.1f}"`: one decimal place, round-half-to-even (on the exact
rational; the double rounding a binary float introduces first is part of the
float idealisation). -/
def fmt1 (q : ℚ) : String :=
  let sign := if q.num < 0 then "-" else ""
  let a := q.num.natAbs * 10
  let t := a / q.den
  let r := a % q.den
  let tenths :=
    if q.den < 2 * r then t + 1
    else if 2 * r < q.den then t
    else if t % 2 = 0 then t else t + 1
  sign ++ natToString (tenths / 10) ++ "." ++ natToString (tenths % 10)

def fmt1V (v : Value) : String :=
  match asNum? v with
  | some q => fmt1 q
  | none => pyStrValue v

/-- Python `int(s)` for a string: optional surrounding whitespace, optional
sign, decimal digits; anything else raises `ValueError` (`none` here).
Underscore digit grouping and non-ASCII digits are not modelled. -/
def digitVal? (c : Char) : Option Nat :=
  if decide ('0' ≤ c) && decide (c ≤ '9') then some (c.toNat - 48) else none

def natOfDigits : List Char → Nat → Option Nat
  | [], acc => some acc
  | c :: cs, acc =>
    match digitVal? c with
    | some d => natOfDigits cs (acc * 10 + d)
    | none => none

def isSpaceChar (c : Char) : Bool := c == '\t' || c == '\r' || c == '\n' || c == ' '

def trimChars (l : List Char) : List Char :=
  ((l.dropWhile isSpaceChar).reverse.dropWhile isSpaceChar).reverse

def pyIntOfString (s : String) : Option Int :=
  match trimChars s.toList with
  | [] => none
  | '-' :: rest =>
    if rest.isEmpty then none else (natOfDigits rest 0).map (fun n => -(n : Int))
  | '+' :: rest =>
    if rest.isEmpty then none else (natOfDigits rest 0).map (fun n => (n : Int))
  | l => (natOfDigits l 0).map (fun n => (n : Int))

/-- The `ValidationResult` dataclass. -/
structure ValidationResult where
  is_valid : Bool := true
  exemption_status : String := "UNKNOWN"
  red_flags : List String := []
  warnings : List String := []
  missing_required : List String := []
  suitability_concerns : List String := []
  follow_up_needed : Bool := false
deriving DecidableEq

/-- `KYCValidator.REQUIRED_FIELDS.get(form_type, [])`: the fixed required
dotted paths per form type; unknown form types get the empty list. -/
def REQUIRED_FIELDS (form_type : String) : List String :=
  if form_type == "individual" then
    ["client_name.first", "client_name.last", "address.city", "address.province",
     "contact.email", "personal.dob", "employment.occupation",
     "financials.annual_income", "financials.net_financial_assets",
     "investment_profile.risk_tolerance", "investment_profile.time_horizon",
     "investment_profile.investment_objective"]
  else if form_type == "corporate" then
    ["corporate_name", "business_number", "authorized_persons",
     "financials.annual_income", "financials.net_assets"]
  else if form_type == "trade" then
    ["client_name", "investment_details.issuer", "investment_details.amount",
     "investment_details.source_of_funds"]
  else []

/-- `KYCValidator._get_nested`, after the path has been split: walk the keys,
stepping through `value.get(key)` while the current value is a dict and
returning `None` as soon as it is not.  Total — it can never raise. -/
def getNestedKeys : Value → List String → Value
  | v, [] => v
  | .dict es, k :: ks => getNestedKeys (dGetD es k .null) ks
  | _, _ :: _ => .null

/-- `KYCValidator._get_nested(data, path)`. -/
def getNested (data : Value) (path : String) : Value := getNestedKeys data (splitPath path)

/-- `KYCValidator._check_required_fields`: append to `missing_required` every
required path whose resolved value `is None or == ""`. -/
def checkRequiredFields (data : Dict) (form_type : String) (r : ValidationResult) :
    ValidationResult :=
  { r with missing_required := r.missing_required ++
      (REQUIRED_FIELDS form_type).filter (fun p =>
        let value := getNested (.dict data) p
        isNone value || pyEq value (.str "")) }

def eligibleLimitWarning : String :=
  "Eligible investors have $100k rolling 12-month limit (non-BC)"

def minimumAmountWarning : String :=
  "Client may only invest up to $10,000 under minimum amount exemption"

/-- The body of `KYCValidator._determine_exemption` up to (but excluding) the
write-back into the record: it only reads `data.get("financials", ...)`,
which is passed in here.  Returns the updated result together with
`is_accredited`, `is_eligible` and `accreditation_reason`. -/
def exemptionCore (financials : Value) (r : ValidationResult) :
    Except String (ValidationResult × Bool × Bool × Option String) := do
  let annual_income := pyOr (← pyGet financials "annual_income") (.num 0)
  let spouse_income := pyOr (← pyGet financials "spouse_income") (.num 0)
  let total_income ← pyAdd annual_income spouse_income
  let nfa := pyOr (← pyGet financials "net_financial_assets") (.num 0)
  let net_worth := pyOr (← pyGet financials "net_worth") (.num 0)
  let income_stable ← pyGetD financials "income_stable_2_years" (.bool false)
  let accreditation_reason ← do
    if (← pyGE annual_income (.num 200000)) && truthy income_stable then
      pure (some ("Annual income $" ++ fmtCommaV annual_income ++ " >= $200,000 for 2 years"))
    else if (← pyGE total_income (.num 300000)) && truthy income_stable then
      pure (some ("Joint income $" ++ fmtCommaV total_income ++ " >= $300,000 for 2 years"))
    else if (← pyGE nfa (.num 1000000)) then
      pure (some ("Net financial assets $" ++ fmtCommaV nfa ++ " >= $1,000,000"))
    else if (← pyGE net_worth (.num 5000000)) then
      pure (some ("Net assets $" ++ fmtCommaV net_worth ++ " >= $5,000,000"))
    else
      pure none
  let is_accredited := accreditation_reason.isSome
  let is_eligible ←
    if is_accredited then pure false
    else if (← pyGE annual_income (.num 75000)) then pure true
    else if (← pyGE total_income (.num 125000)) then pure true
    else if (← pyGE net_worth (.num 400000)) then pure true
    else pure false
  let r :=
    if is_accredited then { r with exemption_status := "ACCREDITED" }
    else if is_eligible then
      { r with exemption_status := "ELIGIBLE",
               warnings := r.warnings ++ [eligibleLimitWarning] }
    else
      { r with exemption_status := "NON_ELIGIBLE",
               warnings := r.warnings ++ [minimumAmountWarning] }
  pure (r, is_accredited, is_eligible, accreditation_reason)

/-- The Python value stored for `accreditation_reason`: the string when a
rule matched, `None` otherwise. -/
def reasonValue : Option String → Value
  | some s => .str s
  | none => .null

/-- `KYCValidator._determine_exemption`: the rule evaluation (`exemptionCore`)
followed by the write-back of `is_accredited`, `is_eligible` and
`accreditation_reason` into `data["exemption_status"]` (creating that section
when absent; item assignment on a non-dict value raises `TypeError`). -/
def determineExemption (data : Dict) (r : ValidationResult) :
    Except String (ValidationResult × Dict) := do
  let (r, is_accredited, is_eligible, accreditation_reason) ←
    exemptionCore (dGetD data "financials" (.dict [])) r
  let data :=
    if (dictFind? data "exemption_status").isSome then data
    else dictSet data "exemption_status" (.dict [])
  match dGetD data "exemption_status" .null with
  | .dict es =>
    let es := dictSet es "is_accredited" (.bool is_accredited)
    let es := dictSet es "is_eligible" (.bool is_eligible)
    let es := dictSet es "accreditation_reason" (reasonValue accreditation_reason)
    pure (r, dictSet data "exemption_status" (.dict es))
  | _ => .error itemAssignMsg

/-- The body of `KYCValidator._check_suitability`; it reads the record only
through `data.get("investment_profile", ...)` and `data.get("personal", ...)`
which are passed in here.  (The source also binds
`financials = data.get("financials", ...)` but never uses it, and a `get` on
the top-level dict cannot fail.)  `currentYear` stands for
`datetime.datetime.now().year`. -/
def suitabilityCore (currentYear : Int) (profile personal : Value)
    (r : ValidationResult) : Except String ValidationResult := do
  let risk_tolerance ← pyGet profile "risk_tolerance"
  let risk_capacity ← pyGet profile "risk_capacity"
  let time_horizon ← pyGet profile "time_horizon"
  let objective ← pyGet profile "investment_objective"
  let r :=
    if pyEq risk_tolerance (.str "HIGH") &&
        (pyEq risk_capacity (.str "LOW") || pyEq risk_capacity (.str "NIL")) then
      { r with suitability_concerns := r.suitability_concerns ++
          ["Risk tolerance (HIGH) exceeds risk capacity (LOW/NIL) - verify with client"] }
    else r
  let retirement_year ← pyGet profile "planned_retirement_year"
  let r ←
    if truthy retirement_year then do
      let years_to_retirement ← pySub retirement_year (.num (currentYear : ℚ))
      if pyEq time_horizon (.str "10+") then
        if (← pyLT years_to_retirement (.num 5)) then
          pure { r with suitability_concerns := r.suitability_concerns ++
              ["Time horizon mismatch: selected 10+ years but retirement in " ++
                pyStrValue years_to_retirement ++ " years"] }
        else pure r
      else pure r
    else pure r
  let r :=
    if pyEq objective (.str "GROWTH") && pyEq risk_tolerance (.str "LOW") then
      { r with suitability_concerns := r.suitability_concerns ++
          ["Growth objective may not align with LOW risk tolerance"] }
    else r
  let r :=
    if pyEq objective (.str "INCOME") && pyEq risk_tolerance (.str "HIGH") then
      { r with warnings := r.warnings ++
          ["Income objective with HIGH risk tolerance - verify client understands"] }
    else r
  let dob ← pyGet personal "dob"
  if truthy dob then
    -- `int(dob.split("-")[0])` inside `try ... except (ValueError, IndexError)`:
    -- a non-string raises AttributeError, which that handler does not catch;
    -- a non-numeric year raises ValueError, which skips both age checks.
    match dob with
    | .str s =>
      match pyIntOfString ((splitCh '-' s).headD "") with
      | some birth_year =>
        let age := currentYear - birth_year
        let r :=
          if decide (65 ≤ age) && pyEq risk_tolerance (.str "HIGH") then
            { r with suitability_concerns := r.suitability_concerns ++
                ["Client is " ++ intToString age ++
                  " years old with HIGH risk tolerance - ensure this is appropriate"] }
          else r
        let r :=
          if decide (70 ≤ age) && pyEq time_horizon (.str "10+") then
            { r with suitability_concerns := r.suitability_concerns ++
                ["Client is " ++ intToString age ++
                  " years old with 10+ year time horizon - verify suitability"] }
          else r
        pure r
      | none => pure r
    | _ => .error attrSplitMsg
  else pure r

/-- `KYCValidator._check_suitability`. -/
def checkSuitability (currentYear : Int) (data : Dict) (r : ValidationResult) :
    Except String ValidationResult :=
  suitabilityCore currentYear (dGetD data "investment_profile" (.dict []))
    (dGetD data "personal" (.dict [])) r

/-- The body of `KYCValidator._check_aml_flags`, over the two sections it
reads (`data.get("aml", ...)` and `data.get("financials", ...)`). -/
def amlCore (aml financials : Value) (r : ValidationResult) :
    Except String ValidationResult := do
  let is_pep ← pyGet aml "is_pep"
  let r ←
    if truthy is_pep then do
      let pos ← pyGetD aml "pep_position" (.str "position unknown")
      pure { r with red_flags := r.red_flags ++
          ["Client is a Politically Exposed Person: " ++ pyStrValue pos] }
    else pure r
  let is_hio ← pyGet aml "is_hio"
  let r :=
    if truthy is_hio then
      { r with red_flags := r.red_flags ++
          ["Client is Head of International Organization - enhanced due diligence required"] }
    else r
  let borrowed ← pyGet financials "borrowed_to_invest"
  let r :=
    if truthy borrowed then
      { r with warnings := r.warnings ++
          ["Client using borrowed funds - leverage disclosure required"] }
    else r
  let nfa := pyOr (← pyGet financials "net_financial_assets") (.num 0)
  if (← pyGE nfa (.num 1000000)) then
    pure { r with warnings := r.warnings ++
        ["NFA of $" ++ fmtCommaV nfa ++ " requires verification documentation"] }
  else pure r

/-- `KYCValidator._check_aml_flags`. -/
def checkAmlFlags (data : Dict) (r : ValidationResult) : Except String ValidationResult :=
  amlCore (dGetD data "aml" (.dict [])) (dGetD data "financials" (.dict [])) r

/-- The body of `KYCValidator._check_concentration`, over the two sections it
reads.  The percentage is computed only inside the
`nfa > 0 and investment_amount > 0` guard (short-circuit: the second
comparison is evaluated only when the first is true). -/
def concentrationCore (financials investment : Value) (r : ValidationResult) :
    Except String ValidationResult := do
  let nfa := pyOr (← pyGet financials "net_financial_assets") (.num 0)
  let investment_amount := pyOr (← pyGet investment "amount") (.num 0)
  if (← pyGT nfa (.num 0)) then
    if (← pyGT investment_amount (.num 0)) then do
      let concentration_pct ← pyMul (← pyDiv investment_amount nfa) (.num 100)
      let r ←
        if (← pyGT concentration_pct (.num 10)) then
          pure { r with warnings := r.warnings ++
              ["Investment represents " ++ fmt1V concentration_pct ++
                "% of NFA (>10%) - document suitability justification"] }
        else pure r
      if (← pyGT concentration_pct (.num 25)) then
        pure { r with suitability_concerns := r.suitability_concerns ++
            ["High concentration: " ++ fmt1V concentration_pct ++
              "% of NFA in single investment"] }
      else pure r
    else pure r
  else pure r

/-- `KYCValidator._check_concentration`. -/
def checkConcentration (data : Dict) (r : ValidationResult) :
    Except String ValidationResult :=
  concentrationCore (dGetD data "financials" (.dict []))
    (dGetD data "investment_details" (.dict [])) r

/-- `KYCValidator.validate`: run the five checks in source order against one
record and one fresh `ValidationResult`, then derive `follow_up_needed` and
`is_valid`.  Returns the report together with the (possibly mutated) record.
`currentYear` stands for `datetime.datetime.now().year` used by the
suitability checks. -/
def validate (currentYear : Int) (data : Dict) (form_type : String) :
    Except String (ValidationResult × Dict) := do
  let result : ValidationResult := {}
  let result := checkRequiredFields data form_type result
  let (result, data) ← determineExemption data result
  let result ← checkSuitability currentYear data result
  let result ← checkAmlFlags data result
  let result ← checkConcentration data result
  let follow_up_needed :=
    decide (0 < result.red_flags.length) ||
    decide (3 < result.missing_required.length) ||
    decide (0 < result.suitability_concerns.length)
  let is_valid :=
    decide (result.red_flags.length = 0) && decide (result.missing_required.length ≤ 3)
  pure ({ result with follow_up_needed := follow_up_needed, is_valid := is_valid }, data)

end KYCValidator

namespace KYCValidator

/-! ### Basic lemmas about the dict operations -/

theorem dictFind?_dictSet_self (es : Dict) (k : String) (v : Value) :
    dictFind? (dictSet es k v) k = some v := by
  induction es with
  | nil => simp [dictSet, dictFind?]
  | cons p es ih =>
    by_cases h : p.1 == k
    · simp [dictSet, h, dictFind?]
    · simpa [dictSet, h, dictFind?, List.find?] using ih

theorem dictFind?_dictSet_other (es : Dict) (k k2 : String) (v : Value) (hne : k2 ≠ k) :
    dictFind? (dictSet es k v) k2 = dictFind? es k2 := by
  have hkk : (k == k2) = false := by
    simp only [beq_eq_false_iff_ne]
    exact fun h => hne h.symm
  induction es with
  | nil => simp [dictSet, dictFind?, List.find?, hkk]
  | cons p es ih =>
    by_cases h : (p.1 == k) = true
    · have hp : p.1 = k := by simpa using h
      have hp2 : (p.1 == k2) = false := by
        simp only [beq_eq_false_iff_ne, hp]
        exact fun h' => hne h'.symm
      simp [dictSet, h, dictFind?, List.find?, hkk, hp2]
    · have h' : (p.1 == k) = false := by simpa using h
      by_cases h2 : (p.1 == k2) = true
      · simp [dictSet, h', dictFind?, List.find?, h2]
      · have h2' : (p.1 == k2) = false := by simpa using h2
        simpa [dictSet, h', dictFind?, List.find?, h2'] using ih

theorem dictSet_eq_of_find (es : Dict) (k : String) (v : Value)
    (h : dictFind? es k = some v) : dictSet es k v = es := by
  induction es with
  | nil => simp [dictFind?] at h
  | cons p es ih =>
    by_cases hk : (p.1 == k) = true
    · have hp : p.1 = k := by simpa using hk
      have hv : p.2 = v := by
        simpa [dictFind?, List.find?, hk] using h
      simp [dictSet, hk, ← hp, ← hv]
    · have hk' : (p.1 == k) = false := by simpa using hk
      have h' : dictFind? es k = some v := by
        simpa [dictFind?, List.find?, hk'] using h
      simp [dictSet, hk', ih h']

theorem dGetD_dictSet_self (es : Dict) (k : String) (v d : Value) :
    dGetD (dictSet es k v) k d = v := by
  simp [dGetD, dictFind?_dictSet_self]

theorem dGetD_dictSet_other (es : Dict) (k k2 : String) (v d : Value) (hne : k2 ≠ k) :
    dGetD (dictSet es k v) k2 d = dGetD es k2 d := by
  simp [dGetD, dictFind?_dictSet_other _ _ _ _ hne]

theorem getNestedKeys_null (ks : List String) : getNestedKeys .null ks = .null := by
  cases ks <;> rfl

/-- Reads along a path that does not start at `"exemption_status"` are
unaffected by a write to that top-level key. -/
theorem getNestedKeys_dictSet_other (data : Dict) (k0 k : String) (v : Value)
    (ks : List String) (hne : k ≠ k0) :
    getNestedKeys (.dict (dictSet data k0 v)) (k :: ks) =
      getNestedKeys (.dict data) (k :: ks) := by
  simp [getNestedKeys, dGetD_dictSet_other _ _ _ _ _ hne]

/-! ### Lemmas about the numeric embedding -/

/-- The rational a numeric-or-absent field contributes after Python's
`value or 0`. -/
def finNum (v : Value) : ℚ := (asNum? (pyOr v (.num 0))).getD 0

/-- `v` is a value whose `v or 0` is numeric: a number or boolean, or any
falsy value (absent/`None`/`False`/`""`/empty containers degrade to `0`). -/
def numOrAbsent (v : Value) : Bool := (asNum? v).isSome || !(truthy v)

theorem numOrAbsent_asNum (v : Value) (h : numOrAbsent v = true) :
    asNum? (pyOr v (.num 0)) = some (finNum v) := by
  unfold numOrAbsent at h
  by_cases ht : truthy v = true
  · have hs : (asNum? v).isSome = true := by
      rcases Bool.or_eq_true_iff.mp h with h' | h'
      · exact h'
      · rw [ht] at h'; simp at h'
    rcases Option.isSome_iff_exists.mp hs with ⟨q, hq⟩
    simp [pyOr, ht, finNum, hq]
  · have ht' : truthy v = false := by simpa using ht
    simp [pyOr, ht', finNum, asNum?]

theorem pyGet_dict (es : Dict) (k : String) : pyGet (.dict es) k = .ok (dGetD es k .null) := rfl

theorem pyGetD_dict (es : Dict) (k : String) (d : Value) :
    pyGetD (.dict es) k d = .ok (dGetD es k d) := rfl

theorem pyGE_of_num {a : Value} {x : ℚ} (h : asNum? a = some x) (c : ℚ) :
    pyGE a (.num c) = .ok (decide (c ≤ x)) := by
  unfold pyGE
  rw [h]
  rfl

theorem pyGT_of_num {a : Value} {x : ℚ} (h : asNum? a = some x) (c : ℚ) :
    pyGT a (.num c) = .ok (decide (c < x)) := by
  unfold pyGT
  rw [h]
  rfl

theorem pyLT_of_num {a : Value} {x : ℚ} (h : asNum? a = some x) (c : ℚ) :
    pyLT a (.num c) = .ok (decide (x < c)) := by
  unfold pyLT
  rw [h]
  rfl

theorem pyAdd_of_num {a b : Value} {x y : ℚ} (ha : asNum? a = some x)
    (hb : asNum? b = some y) : pyAdd a b = .ok (.num (x + y)) := by
  unfold pyAdd
  rw [ha, hb]
  show Except.ok (Value.num (qAdd x y)) = _
  rw [qAdd_eq]

theorem pyDiv_of_num {a b : Value} {x y : ℚ} (ha : asNum? a = some x)
    (hb : asNum? b = some y) (hy : y ≠ 0) : pyDiv a b = .ok (.num (x / y)) := by
  unfold pyDiv
  rw [ha, hb]
  show (if y = 0 then Except.error zeroDivMsg else Except.ok (Value.num (qDiv x y))) = _
  rw [if_neg hy, qDiv_eq]

theorem pyMul_of_num {a b : Value} {x y : ℚ} (ha : asNum? a = some x)
    (hb : asNum? b = some y) : pyMul a b = .ok (.num (x * y)) := by
  unfold pyMul
  rw [ha, hb]
  show Except.ok (Value.num (qMul x y)) = _
  rw [qMul_eq]

/-- Comparison of two already-numeric values (used for `total_income` and the
concentration percentage, which are always `Value.num`). -/
theorem pyGE_num_num (q c : ℚ) : pyGE (.num q) (.num c) = .ok (decide (c ≤ q)) := rfl

theorem pyGT_num_num (q c : ℚ) : pyGT (.num q) (.num c) = .ok (decide (c < q)) := rfl

theorem pyLT_num_num (q c : ℚ) : pyLT (.num q) (.num c) = .ok (decide (q < c)) := rfl

theorem fmtCommaV_num (q : ℚ) : fmtCommaV (.num q) = fmtComma q := rfl

theorem fmt1V_num (q : ℚ) : fmt1V (.num q) = fmt1 q := rfl

theorem fmtCommaV_of_num {v : Value} {q : ℚ} (h : asNum? v = some q) :
    fmtCommaV v = fmtComma q := by
  unfold fmtCommaV
  rw [h]

/-! ### Closed-form characterization of the exemption classifier -/

/-- The annual income the classifier works with, extracted from the
`financials` section entries. -/
def annualOf (fs : Dict) : ℚ := finNum (dGetD fs "annual_income" .null)

def spouseOf (fs : Dict) : ℚ := finNum (dGetD fs "spouse_income" .null)

def nfaOf (fs : Dict) : ℚ := finNum (dGetD fs "net_financial_assets" .null)

def netWorthOf (fs : Dict) : ℚ := finNum (dGetD fs "net_worth" .null)

/-- Truthiness of the `income_stable_2_years` flag (absent means `False`). -/
def stableOf (fs : Dict) : Bool := truthy (dGetD fs "income_stable_2_years" (.bool false))

/-- The accreditation reason the classifier computes: the four accredited
rules in source order, first match wins. -/
def reasonSpec (fs : Dict) : Option String :=
  if 200000 ≤ annualOf fs ∧ stableOf fs = true then
    some ("Annual income $" ++ fmtComma (annualOf fs) ++ " >= $200,000 for 2 years")
  else if 300000 ≤ annualOf fs + spouseOf fs ∧ stableOf fs = true then
    some ("Joint income $" ++ fmtComma (annualOf fs + spouseOf fs) ++ " >= $300,000 for 2 years")
  else if 1000000 ≤ nfaOf fs then
    some ("Net financial assets $" ++ fmtComma (nfaOf fs) ++ " >= $1,000,000")
  else if 5000000 ≤ netWorthOf fs then
    some ("Net assets $" ++ fmtComma (netWorthOf fs) ++ " >= $5,000,000")
  else none

def accSpec (fs : Dict) : Bool := (reasonSpec fs).isSome

def eligSpec (fs : Dict) : Bool :=
  !accSpec fs &&
    (decide (75000 ≤ annualOf fs) || decide (125000 ≤ annualOf fs + spouseOf fs) ||
     decide (400000 ≤ netWorthOf fs))

def exemptionResultSpec (fs : Dict) (r : ValidationResult) : ValidationResult :=
  if accSpec fs then { r with exemption_status := "ACCREDITED" }
  else if eligSpec fs then
    { r with exemption_status := "ELIGIBLE",
             warnings := r.warnings ++ [eligibleLimitWarning] }
  else
    { r with exemption_status := "NON_ELIGIBLE",
             warnings := r.warnings ++ [minimumAmountWarning] }

/-- `Except` bind on a success reduces. -/
theorem bind_ok_rfl {β α : Type} (v : α) (g : α → Except String β) :
    (Except.ok v >>= g) = g v := rfl

/-- `pure` in the `Except` monad. -/
theorem pure_eq_ok {α : Type} (a : α) : (pure a : Except String α) = .ok a := rfl

set_option maxHeartbeats 1000000 in
theorem exemptionCore_spec (fs : Dict) (r : ValidationResult)
    (h1 : numOrAbsent (dGetD fs "annual_income" .null) = true)
    (h2 : numOrAbsent (dGetD fs "spouse_income" .null) = true)
    (h3 : numOrAbsent (dGetD fs "net_financial_assets" .null) = true)
    (h4 : numOrAbsent (dGetD fs "net_worth" .null) = true) :
    exemptionCore (.dict fs) r =
      .ok (exemptionResultSpec fs r, accSpec fs, eligSpec fs, reasonSpec fs) := by
  have e1 := numOrAbsent_asNum _ h1
  have e2 := numOrAbsent_asNum _ h2
  have e3 := numOrAbsent_asNum _ h3
  have e4 := numOrAbsent_asNum _ h4
  conv_lhs => rw [exemptionCore]
  conv_lhs => simp only [pyGet_dict, pyGetD_dict, bind_ok_rfl]
  conv_lhs => simp only [pyAdd_of_num e1 e2, bind_ok_rfl]
  conv_lhs => simp only [pyGE_of_num e1, pyGE_of_num e3, pyGE_of_num e4, pyGE_num_num,
    bind_ok_rfl, pure_eq_ok]
  conv_lhs => simp only [fmtCommaV_of_num e1, fmtCommaV_of_num e3, fmtCommaV_of_num e4,
    fmtCommaV_num, bind_ok_rfl, pure_eq_ok]
  simp only [reasonSpec, accSpec, eligSpec, exemptionResultSpec,
    annualOf, spouseOf, nfaOf, netWorthOf, stableOf]
  by_cases hA : 200000 ≤ finNum (dGetD fs "annual_income" Value.null) <;>
    by_cases hS : truthy (dGetD fs "income_stable_2_years" (Value.bool false)) = true <;>
      by_cases hJ : 300000 ≤ finNum (dGetD fs "annual_income" Value.null) +
          finNum (dGetD fs "spouse_income" Value.null) <;>
        by_cases hN : 1000000 ≤ finNum (dGetD fs "net_financial_assets" Value.null) <;>
          by_cases hW : 5000000 ≤ finNum (dGetD fs "net_worth" Value.null) <;>
            by_cases hE1 : 75000 ≤ finNum (dGetD fs "annual_income" Value.null) <;>
              by_cases hE2 : 125000 ≤ finNum (dGetD fs "annual_income" Value.null) +
                  finNum (dGetD fs "spouse_income" Value.null) <;>
                by_cases hE3 : 400000 ≤ finNum (dGetD fs "net_worth" Value.null) <;>
                  simp only [hA, hS, hJ, hN, hW, hE1, hE2, hE3, decide_True, decide_False,
                    if_true, if_false, ite_true, ite_false, Bool.true_and, Bool.false_and,
                    Bool.and_true, Bool.and_false, Bool.and_self, Option.isSome_some,
                    Option.isSome_none, Bool.not_true, Bool.not_false, Bool.true_or,
                    Bool.false_or, Bool.or_true, Bool.or_false, and_self, and_true, true_and,
                    and_false, false_and, eq_self_iff_true, if_pos, if_neg] <;>
                  simp_all

end KYCValidator

namespace KYCValidator

/-! ### Characterization of `_determine_exemption` including its write-back -/

/-- The top-level key `k` of the record is either absent or holds a dict (so
Python item assignment into it cannot raise). -/
def sectionOk (data : Dict) (k : String) : Bool :=
  match dictFind? data k with
  | none => true
  | some (.dict _) => true
  | some _ => false

/-- The entries of the `exemption_status` section after the classifier has
ensured it exists (empty when the key was absent). -/
def exSection (data : Dict) : Dict :=
  match dictFind? data "exemption_status" with
  | some (.dict es) => es
  | _ => []

/-- The record after `_determine_exemption`'s write-back. -/
def exWriteBack (data : Dict) (acc elig : Bool) (reason : Option String) : Dict :=
  dictSet
    (if (dictFind? data "exemption_status").isSome then data
     else dictSet data "exemption_status" (.dict []))
    "exemption_status"
    (.dict (dictSet (dictSet (dictSet (exSection data) "is_accredited" (.bool acc))
      "is_eligible" (.bool elig)) "accreditation_reason" (reasonValue reason)))

theorem determineExemption_spec (data : Dict) (r : ValidationResult) (fs : Dict)
    (hfs : dGetD data "financials" (.dict []) = .dict fs)
    (h1 : numOrAbsent (dGetD fs "annual_income" .null) = true)
    (h2 : numOrAbsent (dGetD fs "spouse_income" .null) = true)
    (h3 : numOrAbsent (dGetD fs "net_financial_assets" .null) = true)
    (h4 : numOrAbsent (dGetD fs "net_worth" .null) = true)
    (h5 : sectionOk data "exemption_status" = true) :
    determineExemption data r =
      .ok (exemptionResultSpec fs r,
        exWriteBack data (accSpec fs) (eligSpec fs) (reasonSpec fs)) := by
  conv_lhs => rw [determineExemption, hfs, exemptionCore_spec fs r h1 h2 h3 h4]
  cases hv : dictFind? data "exemption_status" with
  | none =>
    simp only [bind_ok_rfl, hv, Option.isSome_none, Bool.false_eq_true, if_false,
      dGetD_dictSet_self, exWriteBack, exSection, pure_eq_ok]
  | some v =>
    cases v with
    | dict es =>
      simp only [bind_ok_rfl, hv, Option.isSome_some, if_true, dGetD, Option.getD_some,
        exWriteBack, exSection, pure_eq_ok]
    | null => simp [sectionOk, hv] at h5
    | bool b => simp [sectionOk, hv] at h5
    | num q => simp [sectionOk, hv] at h5
    | str s => simp [sectionOk, hv] at h5
    | list l => simp [sectionOk, hv] at h5

theorem exWriteBack_find_self (data : Dict) (acc elig : Bool) (reason : Option String) :
    dictFind? (exWriteBack data acc elig reason) "exemption_status" =
      some (.dict (dictSet (dictSet (dictSet (exSection data) "is_accredited" (.bool acc))
        "is_eligible" (.bool elig)) "accreditation_reason" (reasonValue reason))) := by
  unfold exWriteBack
  exact dictFind?_dictSet_self _ _ _

theorem exWriteBack_find_other (data : Dict) (acc elig : Bool) (reason : Option String)
    (k : String) (hk : k ≠ "exemption_status") :
    dictFind? (exWriteBack data acc elig reason) k = dictFind? data k := by
  unfold exWriteBack
  by_cases hv : (dictFind? data "exemption_status").isSome
  · simp only [hv, if_true, dictFind?_dictSet_other _ _ _ _ hk]
  · simp only [hv, Bool.false_eq_true, if_false, dictFind?_dictSet_other _ _ _ _ hk]

theorem getNestedKeys_nil (v : Value) : getNestedKeys v [] = v := by
  cases v <;> rfl

/-- The written accreditation reason, read back through the field accessor. -/
theorem exWriteBack_reason (data : Dict) (acc elig : Bool) (reason : Option String) :
    getNestedKeys (.dict (exWriteBack data acc elig reason))
      ["exemption_status", "accreditation_reason"] = reasonValue reason := by
  show getNestedKeys (dGetD (exWriteBack data acc elig reason) "exemption_status" .null)
      ["accreditation_reason"] = reasonValue reason
  rw [dGetD, exWriteBack_find_self, Option.getD_some]
  show getNestedKeys (dGetD _ "accreditation_reason" .null) [] = reasonValue reason
  rw [dGetD, dictFind?_dictSet_self, Option.getD_some, getNestedKeys_nil]

theorem exemptionResultSpec_red_flags (fs : Dict) (r : ValidationResult) :
    (exemptionResultSpec fs r).red_flags = r.red_flags := by
  unfold exemptionResultSpec
  split_ifs <;> rfl

theorem exemptionResultSpec_missing (fs : Dict) (r : ValidationResult) :
    (exemptionResultSpec fs r).missing_required = r.missing_required := by
  unfold exemptionResultSpec
  split_ifs <;> rfl

theorem exemptionResultSpec_concerns (fs : Dict) (r : ValidationResult) :
    (exemptionResultSpec fs r).suitability_concerns = r.suitability_concerns := by
  unfold exemptionResultSpec
  split_ifs <;> rfl

/-! ### First-match-wins formulation used by the claims -/

/-- The accredited-investor condition of NI 45-106 as the classifier encodes
it, on the numeric values of the `financials` section (absent treated as
zero/false). -/
def accreditedCond (fs : Dict) : Prop :=
  (200000 ≤ annualOf fs ∧ stableOf fs = true) ∨
  (300000 ≤ annualOf fs + spouseOf fs ∧ stableOf fs = true) ∨
  1000000 ≤ nfaOf fs ∨ 5000000 ≤ netWorthOf fs

instance (fs : Dict) : Decidable (accreditedCond fs) := by
  unfold accreditedCond
  infer_instance

/-- The reason string of the first matching accredited rule, in the source's
precedence order. -/
def firstMatchReason (fs : Dict) : String :=
  if 200000 ≤ annualOf fs ∧ stableOf fs = true then
    "Annual income $" ++ fmtComma (annualOf fs) ++ " >= $200,000 for 2 years"
  else if 300000 ≤ annualOf fs + spouseOf fs ∧ stableOf fs = true then
    "Joint income $" ++ fmtComma (annualOf fs + spouseOf fs) ++ " >= $300,000 for 2 years"
  else if 1000000 ≤ nfaOf fs then
    "Net financial assets $" ++ fmtComma (nfaOf fs) ++ " >= $1,000,000"
  else
    "Net assets $" ++ fmtComma (netWorthOf fs) ++ " >= $5,000,000"

theorem accSpec_iff (fs : Dict) : accSpec fs = true ↔ accreditedCond fs := by
  unfold accSpec reasonSpec accreditedCond
  split_ifs with hA hJ hN hW <;> simp_all

theorem reasonSpec_of_acc (fs : Dict) (hacc : accreditedCond fs) :
    reasonSpec fs = some (firstMatchReason fs) := by
  unfold accreditedCond at hacc
  unfold reasonSpec firstMatchReason
  split_ifs with hA hJ hN hW <;> simp_all

end KYCValidator

namespace KYCValidator

/-! ### Claim C1 -/

/-- C1: for every record whose `financials` section carries numeric-or-absent
figures (and whose `exemption_status` slot, if present, is writable), the
exemption classifier puts the accredited rules before the eligible rules with
first-match-wins precedence: whenever any accredited threshold is met
(annual income at least 200,000 with the stability flag, joint income at
least 300,000 with stability, NFA at least 1,000,000, or net worth at least
5,000,000, absent values counting as zero/false), the resulting tier is
ACCREDITED — even when an eligible threshold also holds — and the stored
reason string is the one of the first matching rule. -/
theorem claim_C1_accredited_precedence
    (data : Dict) (r : ValidationResult) (fs : Dict)
    (hfs : dGetD data "financials" (.dict []) = .dict fs)
    (h1 : numOrAbsent (dGetD fs "annual_income" .null) = true)
    (h2 : numOrAbsent (dGetD fs "spouse_income" .null) = true)
    (h3 : numOrAbsent (dGetD fs "net_financial_assets" .null) = true)
    (h4 : numOrAbsent (dGetD fs "net_worth" .null) = true)
    (h5 : sectionOk data "exemption_status" = true)
    (hacc : accreditedCond fs) :
    ∃ r2 d2, determineExemption data r = .ok (r2, d2) ∧
      r2.exemption_status = "ACCREDITED" ∧
      getNestedKeys (.dict d2) ["exemption_status", "accreditation_reason"] =
        .str (firstMatchReason fs) := by
  refine ⟨_, _, determineExemption_spec data r fs hfs h1 h2 h3 h4 h5, ?_, ?_⟩
  · have hA : accSpec fs = true := (accSpec_iff fs).mpr hacc
    simp [exemptionResultSpec, hA]
  · rw [exWriteBack_reason, reasonSpec_of_acc fs hacc]
    rfl

theorem finNum_num (x : ℚ) : finNum (.num x) = x := by
  by_cases h : x = 0 <;> simp [finNum, pyOr, truthy, asNum?, h]

def w1fin : Dict := [("annual_income", .num 100000), ("net_financial_assets", .num 1500000)]

def w1data : Dict := [("financials", Value.dict w1fin)]

theorem claim_C1_witness :
    dGetD w1data "financials" (.dict []) = .dict w1fin ∧
    numOrAbsent (dGetD w1fin "annual_income" .null) = true ∧
    sectionOk w1data "exemption_status" = true ∧
    accreditedCond w1fin ∧
    (∃ r2 d2, determineExemption w1data {} = .ok (r2, d2) ∧
      r2.exemption_status = "ACCREDITED" ∧
      getNestedKeys (.dict d2) ["exemption_status", "accreditation_reason"] =
        .str (firstMatchReason w1fin)) := by
  have hacc : accreditedCond w1fin := by
    unfold accreditedCond
    refine Or.inr (Or.inr (Or.inl ?_))
    show (1000000 : ℚ) ≤ finNum (.num 1500000)
    rw [finNum_num]
    norm_num
  exact ⟨rfl, rfl, rfl, hacc,
    claim_C1_accredited_precedence w1data {} w1fin rfl rfl rfl rfl rfl rfl hacc⟩

/-! ### Claim C6 -/

/-- The `financials` section holding exactly the boundary test's figures,
with the stability flag true. -/
def boundaryFin (ai si nfa nw : ℚ) : Dict :=
  [("annual_income", .num ai), ("spouse_income", .num si),
   ("net_financial_assets", .num nfa), ("net_worth", .num nw),
   ("income_stable_2_years", .bool true)]

/-- A record holding exactly the financial figures of the boundary test. -/
def boundaryRec (ai si nfa nw : ℚ) : Dict := [("financials", .dict (boundaryFin ai si nfa nw))]

theorem annualOf_bf (ai si nfa nw : ℚ) : annualOf (boundaryFin ai si nfa nw) = ai := by
  show finNum (.num ai) = ai
  exact finNum_num ai

theorem spouseOf_bf (ai si nfa nw : ℚ) : spouseOf (boundaryFin ai si nfa nw) = si := by
  show finNum (.num si) = si
  exact finNum_num si

theorem nfaOf_bf (ai si nfa nw : ℚ) : nfaOf (boundaryFin ai si nfa nw) = nfa := by
  show finNum (.num nfa) = nfa
  exact finNum_num nfa

theorem netWorthOf_bf (ai si nfa nw : ℚ) : netWorthOf (boundaryFin ai si nfa nw) = nw := by
  show finNum (.num nw) = nw
  exact finNum_num nw

/-- C6: at the single-income boundary, annual income exactly 200,000 with the
stability flag true is classified ACCREDITED (whatever the other figures);
annual income 199,999 with stability true and no other qualifying asset
(joint income below 300,000, NFA below 1,000,000, net worth below 5,000,000)
is classified ELIGIBLE, since 199,999 clears the 75,000 eligible floor. -/
theorem claim_C6_boundary :
    (∀ (si nfa nw : ℚ) (r : ValidationResult),
      ∃ r2 d2, determineExemption (boundaryRec 200000 si nfa nw) r = .ok (r2, d2) ∧
        r2.exemption_status = "ACCREDITED") ∧
    (∀ (si nfa nw : ℚ) (r : ValidationResult),
      (199999 : ℚ) + si < 300000 → nfa < 1000000 → nw < 5000000 →
      ∃ r2 d2, determineExemption (boundaryRec 199999 si nfa nw) r = .ok (r2, d2) ∧
        r2.exemption_status = "ELIGIBLE") := by
  constructor
  · intro si nfa nw r
    refine ⟨_, _, determineExemption_spec _ r _ rfl rfl rfl rfl rfl rfl, ?_⟩
    have hA : accSpec (boundaryFin 200000 si nfa nw) = true := by
      rw [accSpec_iff]
      refine Or.inl ⟨?_, rfl⟩
      rw [annualOf_bf]
    simp [exemptionResultSpec, hA]
  · intro si nfa nw r h6 h7 h8
    refine ⟨_, _, determineExemption_spec _ r _ rfl rfl rfl rfl rfl rfl, ?_⟩
    have hnot : ¬ accreditedCond (boundaryFin 199999 si nfa nw) := by
      rintro (⟨h, _⟩ | ⟨h, _⟩ | h | h)
      · rw [annualOf_bf] at h
        norm_num at h
      · rw [annualOf_bf, spouseOf_bf] at h
        exact absurd h (not_le.mpr h6)
      · rw [nfaOf_bf] at h
        exact absurd h (not_le.mpr h7)
      · rw [netWorthOf_bf] at h
        exact absurd h (not_le.mpr h8)
    have hA : accSpec (boundaryFin 199999 si nfa nw) = false := by
      cases hb : accSpec (boundaryFin 199999 si nfa nw)
      · rfl
      · exact absurd ((accSpec_iff _).mp hb) hnot
    have hE : eligSpec (boundaryFin 199999 si nfa nw) = true := by
      have h75 : (75000 : ℚ) ≤ annualOf (boundaryFin 199999 si nfa nw) := by
        rw [annualOf_bf]
        norm_num
      simp [eligSpec, hA, h75]
    simp [exemptionResultSpec, hA, hE]

theorem claim_C6_witness :
    (∃ r2 d2, determineExemption (boundaryRec 200000 0 0 0) {} = .ok (r2, d2) ∧
      r2.exemption_status = "ACCREDITED") ∧
    ((199999 : ℚ) + 0 < 300000 ∧ (0 : ℚ) < 1000000 ∧ (0 : ℚ) < 5000000) ∧
    (∃ r2 d2, determineExemption (boundaryRec 199999 0 0 0) {} = .ok (r2, d2) ∧
      r2.exemption_status = "ELIGIBLE") :=
  ⟨claim_C6_boundary.1 0 0 0 {}, ⟨by norm_num, by norm_num, by norm_num⟩,
    claim_C6_boundary.2 0 0 0 {} (by norm_num) (by norm_num) (by norm_num)⟩

end KYCValidator

namespace KYCValidator

/-! ### Claim C8: the field accessor -/

/-- C8: the field accessor is total by construction (`getNestedKeys` returns
a `Value`, not an `Except`) and: a non-dict start with a nonempty path gives
absent; a `None` anywhere gives absent for the whole remaining path; a
missing segment gives absent however the path continues; and a key stored as
an explicit `None` is indistinguishable from a missing key for every
continuation of the path. -/
theorem claim_C8_field_accessor :
    (∀ (v : Value) (k : String) (ks : List String),
      (∀ es, v ≠ Value.dict es) → getNestedKeys v (k :: ks) = Value.null) ∧
    (∀ ks : List String, getNestedKeys Value.null ks = Value.null) ∧
    (∀ (es : Dict) (k : String) (ks : List String), dictFind? es k = none →
      getNestedKeys (.dict es) (k :: ks) = Value.null) ∧
    (∀ (es1 es2 : Dict) (k : String) (ks : List String),
      dictFind? es1 k = some Value.null → dictFind? es2 k = none →
      getNestedKeys (.dict es1) (k :: ks) = getNestedKeys (.dict es2) (k :: ks)) := by
  refine ⟨?_, getNestedKeys_null, ?_, ?_⟩
  · intro v k ks h
    cases v with
    | dict es => exact absurd rfl (h es)
    | null => rfl
    | bool b => rfl
    | num q => rfl
    | str s => rfl
    | list l => rfl
  · intro es k ks h
    show getNestedKeys (dGetD es k .null) ks = Value.null
    rw [dGetD, h, Option.getD_none]
    exact getNestedKeys_null ks
  · intro es1 es2 k ks h1 h2
    show getNestedKeys (dGetD es1 k .null) ks = getNestedKeys (dGetD es2 k .null) ks
    rw [dGetD, dGetD, h1, h2, Option.getD_some, Option.getD_none]

theorem claim_C8_witness :
    ((∀ es, Value.str "x" ≠ Value.dict es) ∧
      getNestedKeys (Value.str "x") ["financials"] = Value.null) ∧
    getNestedKeys Value.null ["financials", "annual_income"] = Value.null ∧
    (dictFind? [("b", Value.num 1)] "financials" = none ∧
      getNestedKeys (Value.dict [("b", Value.num 1)]) ["financials", "annual_income"] =
        Value.null) ∧
    (dictFind? [("financials", Value.null)] "financials" = some Value.null ∧
      dictFind? ([] : Dict) "financials" = none ∧
      getNestedKeys (Value.dict [("financials", Value.null)])
          ["financials", "annual_income"] =
        getNestedKeys (Value.dict []) ["financials", "annual_income"]) :=
  ⟨⟨fun _ h => Value.noConfusion h,
    claim_C8_field_accessor.1 (Value.str "x") "financials" [] (fun _ h => Value.noConfusion h)⟩,
   claim_C8_field_accessor.2.1 ["financials", "annual_income"],
   ⟨rfl, claim_C8_field_accessor.2.2.1 [("b", Value.num 1)] "financials" ["annual_income"] rfl⟩,
   ⟨rfl, rfl, claim_C8_field_accessor.2.2.2 [("financials", Value.null)] [] "financials"
      ["annual_income"] rfl rfl⟩⟩

/-! ### Claim C7: the completeness auditor -/

/-- The test `value is None or value == ""` holds exactly for `None` and the
empty string (never for `0`, `False`, or empty containers). -/
theorem missing_test_iff (v : Value) :
    (isNone v || pyEq v (.str "")) = true ↔ v = Value.null ∨ v = Value.str "" := by
  cases v with
  | null => simp [isNone, pyEq]
  | bool b => simp [isNone, pyEq, asNum?]
  | num q => simp [isNone, pyEq, asNum?]
  | str s => simp [isNone, pyEq, asNum?]
  | list l => simp [isNone, pyEq, asNum?]
  | dict es => simp [isNone, pyEq, asNum?]

theorem checkRequiredFields_mem (data : Dict) (form_type : String) (p : String) :
    p ∈ (checkRequiredFields data form_type {}).missing_required ↔
      p ∈ REQUIRED_FIELDS form_type ∧
        (getNested (.dict data) p = Value.null ∨ getNested (.dict data) p = Value.str "") := by
  show p ∈ ([] : List String) ++ _ ↔ _
  rw [List.nil_append, List.mem_filter]
  simp only [missing_test_iff]

/-- C7: the completeness auditor reports a required path as missing exactly
when its resolved value is absent or the empty string; zero, `False` and
empty lists count as present; unknown form types yield an empty requirement
list and hence no missing-field entries (never an error). -/
theorem claim_C7_completeness :
    (∀ (data : Dict) (form_type : String) (p : String),
      p ∈ (checkRequiredFields data form_type {}).missing_required ↔
        p ∈ REQUIRED_FIELDS form_type ∧
          (getNested (.dict data) p = Value.null ∨ getNested (.dict data) p = Value.str "")) ∧
    (∀ (data : Dict) (form_type : String) (p : String),
      (getNested (.dict data) p = Value.num 0 ∨ getNested (.dict data) p = Value.bool false ∨
        getNested (.dict data) p = Value.list []) →
      p ∉ (checkRequiredFields data form_type {}).missing_required) ∧
    (∀ form_type : String, form_type ∉ ["individual", "corporate", "trade"] →
      REQUIRED_FIELDS form_type = [] ∧
      ∀ (data : Dict) (r : ValidationResult),
        (checkRequiredFields data form_type r).missing_required = r.missing_required) := by
  refine ⟨checkRequiredFields_mem, ?_, ?_⟩
  · intro data ft p h hmem
    rcases (checkRequiredFields_mem data ft p).mp hmem with ⟨-, h0 | h0⟩ <;>
      rcases h with h | h | h <;> rw [h] at h0 <;> cases h0
  · intro ft hft
    have h1 : (ft == "individual") = false := by
      simp only [beq_eq_false_iff_ne]
      intro h
      exact hft (by simp [h])
    have h2 : (ft == "corporate") = false := by
      simp only [beq_eq_false_iff_ne]
      intro h
      exact hft (by simp [h])
    have h3 : (ft == "trade") = false := by
      simp only [beq_eq_false_iff_ne]
      intro h
      exact hft (by simp [h])
    have hreq : REQUIRED_FIELDS ft = [] := by
      unfold REQUIRED_FIELDS
      rw [h1, h2, h3]
      rfl
    refine ⟨hreq, ?_⟩
    intro data r
    show (r.missing_required ++ (REQUIRED_FIELDS ft).filter _) = r.missing_required
    rw [hreq]
    exact List.append_nil _

def w7data : Dict := [("financials", Value.dict [("annual_income", Value.num 0)])]

theorem claim_C7_witness :
    (("financials.annual_income" : String) ∈
        (checkRequiredFields [] "individual" {}).missing_required ↔
      "financials.annual_income" ∈ REQUIRED_FIELDS "individual" ∧
        (getNested (.dict []) "financials.annual_income" = Value.null ∨
          getNested (.dict []) "financials.annual_income" = Value.str "")) ∧
    (getNested (.dict w7data) "financials.annual_income" = Value.num 0 ∨
      getNested (.dict w7data) "financials.annual_income" = Value.bool false ∨
      getNested (.dict w7data) "financials.annual_income" = Value.list []) ∧
    ("financials.annual_income" ∉
      (checkRequiredFields w7data "individual" {}).missing_required) ∧
    (("zzz" : String) ∉ ["individual", "corporate", "trade"]) ∧
    REQUIRED_FIELDS "zzz" = [] ∧
    (checkRequiredFields [] "zzz" {}).missing_required = ([] : List String) := by
  have hni : ("zzz" : String) ∉ ["individual", "corporate", "trade"] := by decide
  have h3 := claim_C7_completeness.2.2 "zzz" hni
  exact ⟨claim_C7_completeness.1 [] "individual" "financials.annual_income",
    Or.inl rfl,
    claim_C7_completeness.2.1 w7data "individual" "financials.annual_income" (Or.inl rfl),
    hni, h3.1, h3.2 [] {}⟩

end KYCValidator

namespace KYCValidator

/-! ### Claim C5: the concentration checker -/

theorem pySub_of_num {a b : Value} {x y : ℚ} (ha : asNum? a = some x)
    (hb : asNum? b = some y) : pySub a b = .ok (.num (x - y)) := by
  unfold pySub
  rw [ha, hb]
  show Except.ok (Value.num (qSub x y)) = _
  rw [qSub_eq]

theorem pyMul_num_num (q c : ℚ) : pyMul (.num q) (.num c) = .ok (.num (q * c)) := by
  show Except.ok (Value.num (qMul q c)) = _
  rw [qMul_eq]

def amountOf (ifs : Dict) : ℚ := finNum (dGetD ifs "amount" .null)

def concWarnMsg (pct : ℚ) : String :=
  "Investment represents " ++ fmt1 pct ++ "% of NFA (>10%) - document suitability justification"

def concConcernMsg (pct : ℚ) : String :=
  "High concentration: " ++ fmt1 pct ++ "% of NFA in single investment"

/-- Closed form of the concentration checker on numeric inputs. -/
def concentrationResultSpec (n a : ℚ) (r : ValidationResult) : ValidationResult :=
  if 0 < n then
    if 0 < a then
      let r1 :=
        if 10 < a / n * 100 then
          { r with warnings := r.warnings ++ [concWarnMsg (a / n * 100)] }
        else r
      if 25 < a / n * 100 then
        { r1 with suitability_concerns := r1.suitability_concerns ++
            [concConcernMsg (a / n * 100)] }
      else r1
    else r
  else r

theorem concentrationCore_spec (ffs ifs : Dict) (r : ValidationResult)
    (hn : numOrAbsent (dGetD ffs "net_financial_assets" .null) = true)
    (ha : numOrAbsent (dGetD ifs "amount" .null) = true) :
    concentrationCore (.dict ffs) (.dict ifs) r =
      .ok (concentrationResultSpec (nfaOf ffs) (amountOf ifs) r) := by
  have en := numOrAbsent_asNum _ hn
  have ea := numOrAbsent_asNum _ ha
  conv_lhs => rw [concentrationCore]
  conv_lhs => simp only [pyGet_dict, bind_ok_rfl]
  conv_lhs => simp only [pyGT_of_num en, pyGT_of_num ea, bind_ok_rfl, pure_eq_ok]
  by_cases h0 : 0 < finNum (dGetD ffs "net_financial_assets" Value.null)
  · by_cases h1 : 0 < finNum (dGetD ifs "amount" Value.null)
    · have hne : finNum (dGetD ffs "net_financial_assets" Value.null) ≠ 0 :=
        (ne_of_lt h0).symm
      conv_lhs => simp only [h0, h1, decide_True, if_true, bind_ok_rfl,
        pyDiv_of_num ea en hne, pyMul_num_num, pyGT_num_num, fmt1V_num, pure_eq_ok]
      by_cases h10 : 10 < finNum (dGetD ifs "amount" Value.null) /
          finNum (dGetD ffs "net_financial_assets" Value.null) * 100 <;>
        by_cases h25 : 25 < finNum (dGetD ifs "amount" Value.null) /
            finNum (dGetD ffs "net_financial_assets" Value.null) * 100 <;>
          simp [concentrationResultSpec, nfaOf, amountOf, concWarnMsg, concConcernMsg,
            h0, h1, h10, h25]
    · simp [concentrationResultSpec, nfaOf, amountOf, h0, h1]
  · simp [concentrationResultSpec, nfaOf, amountOf, h0]

/-- C5: the concentration percentage `(investment_amount / nfa) * 100` is
computed only under the guard `nfa > 0 and investment_amount > 0`, so no
division by zero can occur and nothing is emitted when either figure is zero
or absent; percentage exactly 10 triggers no warning (strictly greater than
10 does), and a percentage above 25 appends a separate suitability concern
without replacing the warning.  Numbers are the exact rationals of the
embedding. -/
theorem claim_C5_concentration (data : Dict) (r : ValidationResult) (ffs ifs : Dict)
    (hf : dGetD data "financials" (.dict []) = .dict ffs)
    (hi : dGetD data "investment_details" (.dict []) = .dict ifs)
    (hn : numOrAbsent (dGetD ffs "net_financial_assets" .null) = true)
    (ha : numOrAbsent (dGetD ifs "amount" .null) = true) :
    ∃ r2, checkConcentration data r = .ok r2 ∧
      (¬ (0 < nfaOf ffs ∧ 0 < amountOf ifs) → r2 = r) ∧
      (0 < nfaOf ffs → 0 < amountOf ifs →
        (amountOf ifs / nfaOf ffs * 100 ≤ 10 → r2.warnings = r.warnings) ∧
        (10 < amountOf ifs / nfaOf ffs * 100 →
          r2.warnings = r.warnings ++ [concWarnMsg (amountOf ifs / nfaOf ffs * 100)]) ∧
        (amountOf ifs / nfaOf ffs * 100 ≤ 25 →
          r2.suitability_concerns = r.suitability_concerns) ∧
        (25 < amountOf ifs / nfaOf ffs * 100 →
          r2.suitability_concerns = r.suitability_concerns ++
            [concConcernMsg (amountOf ifs / nfaOf ffs * 100)]) ∧
        r2.red_flags = r.red_flags ∧ r2.missing_required = r.missing_required) := by
  refine ⟨concentrationResultSpec (nfaOf ffs) (amountOf ifs) r, ?_, ?_, ?_⟩
  · rw [checkConcentration, hf, hi, concentrationCore_spec ffs ifs r hn ha]
  · intro h
    rcases not_and_or.mp h with h | h <;> simp [concentrationResultSpec, h]
  · intro h0 h1
    refine ⟨?_, ?_, ?_, ?_, ?_, ?_⟩
    · intro hle
      have h10 : ¬ 10 < amountOf ifs / nfaOf ffs * 100 := not_lt.mpr hle
      have h25 : ¬ 25 < amountOf ifs / nfaOf ffs * 100 :=
        fun hc => h10 (lt_trans (by norm_num) hc)
      simp [concentrationResultSpec, h0, h1, h10, h25]
    · intro h10
      by_cases h25 : 25 < amountOf ifs / nfaOf ffs * 100 <;>
        simp [concentrationResultSpec, h0, h1, h10, h25]
    · intro hle
      have h25 : ¬ 25 < amountOf ifs / nfaOf ffs * 100 := not_lt.mpr hle
      by_cases h10 : 10 < amountOf ifs / nfaOf ffs * 100 <;>
        simp [concentrationResultSpec, h0, h1, h10, h25]
    · intro h25
      have h10 : 10 < amountOf ifs / nfaOf ffs * 100 := lt_trans (by norm_num) h25
      simp [concentrationResultSpec, h0, h1, h10, h25]
    · simp only [concentrationResultSpec]
      split_ifs <;> rfl
    · simp only [concentrationResultSpec]
      split_ifs <;> rfl

def w5data : Dict :=
  [("financials", Value.dict [("net_financial_assets", Value.num 100000)]),
   ("investment_details", Value.dict [("amount", Value.num 10000)])]

theorem claim_C5_witness :
    (dGetD w5data "financials" (.dict []) =
      .dict [("net_financial_assets", Value.num 100000)]) ∧
    ∃ r2, checkConcentration w5data {} = .ok r2 ∧
      r2.warnings = ({} : ValidationResult).warnings ∧
      r2.suitability_concerns = ({} : ValidationResult).suitability_concerns := by
  obtain ⟨r2, hok, hno, hpos⟩ :=
    claim_C5_concentration w5data {} [("net_financial_assets", Value.num 100000)]
      [("amount", Value.num 10000)] rfl rfl rfl rfl
  have e1 : nfaOf [("net_financial_assets", Value.num 100000)] = 100000 := by
    show finNum (.num 100000) = 100000
    exact finNum_num 100000
  have e2 : amountOf [("amount", Value.num 10000)] = 10000 := by
    show finNum (.num 10000) = 10000
    exact finNum_num 10000
  have h0 : (0 : ℚ) < nfaOf [("net_financial_assets", Value.num 100000)] := by
    rw [e1]
    norm_num
  have h1 : (0 : ℚ) < amountOf [("amount", Value.num 10000)] := by
    rw [e2]
    norm_num
  have hpct : amountOf [("amount", Value.num 10000)] /
      nfaOf [("net_financial_assets", Value.num 100000)] * 100 ≤ 10 := by
    rw [e1, e2]
    norm_num
  obtain ⟨hw, -, hc, -, -, -⟩ := hpos h0 h1
  exact ⟨rfl, r2, hok, hw hpct, hc (le_trans hpct (by norm_num))⟩

end KYCValidator

namespace KYCValidator

/-! ### Destructuring the orchestrator pipeline -/

theorem except_bind_ok {α β : Type} {m : Except String α} {g : α → Except String β} {r : β}
    (h : (m >>= g) = .ok r) : ∃ v, m = .ok v ∧ g v = .ok r := by
  cases m with
  | ok v => exact ⟨v, rfl, h⟩
  | error e => exact Except.noConfusion h

/-- Unfolding `validate` into its five stages plus the final verdict
computation. -/
theorem validate_stages (cy : Int) (data : Dict) (ft : String) (r1 : ValidationResult)
    (d1 : Dict) (h : validate cy data ft = .ok (r1, d1)) :
    ∃ rB dB rS rA rC,
      determineExemption data (checkRequiredFields data ft {}) = .ok (rB, dB) ∧
      checkSuitability cy dB rB = .ok rS ∧
      checkAmlFlags dB rS = .ok rA ∧
      checkConcentration dB rA = .ok rC ∧
      d1 = dB ∧
      r1 = { rC with
        follow_up_needed := decide (0 < rC.red_flags.length) ||
          decide (3 < rC.missing_required.length) ||
          decide (0 < rC.suitability_concerns.length),
        is_valid := decide (rC.red_flags.length = 0) &&
          decide (rC.missing_required.length ≤ 3) } := by
  rw [validate] at h
  rcases except_bind_ok h with ⟨⟨rB, dB⟩, h1, h⟩
  rcases except_bind_ok h with ⟨rS, h2, h⟩
  rcases except_bind_ok h with ⟨rA, h3, h⟩
  rcases except_bind_ok h with ⟨rC, h4, h⟩
  simp only [pure_eq_ok, Except.ok.injEq, Prod.mk.injEq] at h
  exact ⟨rB, dB, rS, rA, rC, h1, h2, h3, h4, h.2.symm, h.1.symm⟩

/-- `_determine_exemption` only ever writes the top-level
`exemption_status` key. -/
theorem determineExemption_frame (data : Dict) (r : ValidationResult)
    (rd : ValidationResult × Dict) (h : determineExemption data r = .ok rd) :
    ∀ k, k ≠ "exemption_status" → dictFind? rd.2 k = dictFind? data k := by
  rw [determineExemption] at h
  rcases except_bind_ok h with ⟨⟨r2, acc, elig, rsn⟩, -, h⟩
  split at h
  split at h
  · dsimp only [] at h
    split at h
    · simp only [pure_eq_ok, Except.ok.injEq] at h
      subst h
      intro k hk
      exact dictFind?_dictSet_other _ _ _ _ hk
    · simp at h
  · dsimp only [] at h
    split at h
    · simp only [pure_eq_ok, Except.ok.injEq] at h
      subst h
      intro k hk
      show dictFind? (dictSet (dictSet data "exemption_status" (Value.dict []))
        "exemption_status" _) k = _
      rw [dictFind?_dictSet_other _ _ _ _ hk, dictFind?_dictSet_other _ _ _ _ hk]
    · simp at h

/-- A record whose AML section carries `is_pep: true` has an `aml` key
holding a dict in which `is_pep` is `True`. -/
theorem aml_section_of_pep (data : Dict)
    (h : getNestedKeys (.dict data) ["aml", "is_pep"] = .bool true) :
    ∃ es, dGetD data "aml" (.dict []) = .dict es ∧ dGetD es "is_pep" .null = .bool true := by
  cases hv : dictFind? data "aml" with
  | none =>
    rw [show getNestedKeys (Value.dict data) ["aml", "is_pep"] =
      getNestedKeys (dGetD data "aml" Value.null) ["is_pep"] from rfl, dGetD, hv,
      Option.getD_none] at h
    cases h
  | some v =>
    rw [show getNestedKeys (Value.dict data) ["aml", "is_pep"] =
      getNestedKeys (dGetD data "aml" Value.null) ["is_pep"] from rfl, dGetD, hv,
      Option.getD_some] at h
    cases v with
    | dict es =>
      refine ⟨es, by rw [dGetD, hv, Option.getD_some], ?_⟩
      rw [show getNestedKeys (Value.dict es) ["is_pep"] =
        getNestedKeys (dGetD es "is_pep" Value.null) [] from rfl, getNestedKeys_nil] at h
      exact h
    | null => cases h
    | bool b => cases h
    | num q => cases h
    | str s => cases h
    | list l => cases h

/-- A truthy `is_pep` makes the AML screener's output carry a red flag. -/
theorem amlCore_pep_red (es : Dict) (fv : Value) (r r2 : ValidationResult)
    (hp : dGetD es "is_pep" .null = .bool true)
    (h : amlCore (.dict es) fv r = .ok r2) : r2.red_flags ≠ [] := by
  rw [amlCore, pyGet_dict, hp] at h
  simp only [bind_ok_rfl, show truthy (Value.bool true) = true from rfl, if_true,
    pyGetD_dict, pyGet_dict, pure_eq_ok] at h
  rcases except_bind_ok h with ⟨bv, -, h⟩
  rcases except_bind_ok h with ⟨nv, -, h⟩
  rcases except_bind_ok h with ⟨ge, -, h⟩
  split at h <;> split at h <;> split at h <;>
    (simp only [pure_eq_ok, Except.ok.injEq] at h; subst h; simp)

/-- The concentration checker never touches the red-flag list. -/
theorem concentrationCore_red (f i : Value) (r r2 : ValidationResult)
    (h : concentrationCore f i r = .ok r2) : r2.red_flags = r.red_flags := by
  rw [concentrationCore] at h
  rcases except_bind_ok h with ⟨nv, -, h⟩
  rcases except_bind_ok h with ⟨av, -, h⟩
  rcases except_bind_ok h with ⟨b1, -, h⟩
  split at h
  · rcases except_bind_ok h with ⟨b2, -, h⟩
    split at h
    · rcases except_bind_ok h with ⟨dv, -, h⟩
      rcases except_bind_ok h with ⟨pv, -, h⟩
      rcases except_bind_ok h with ⟨b3, -, h⟩
      simp only [pure_eq_ok, bind_ok_rfl] at h
      split at h <;>
        · rcases except_bind_ok h with ⟨b4, -, h⟩
          split at h <;>
            · simp only [pure_eq_ok, Except.ok.injEq] at h
              subst h
              rfl
    · simp only [pure_eq_ok, Except.ok.injEq] at h
      subst h
      rfl
  · simp only [pure_eq_ok, Except.ok.injEq] at h
    subst h
    rfl

/-! ### Claims C2 and C3 -/

/-- C2: `is_valid` is false exactly when a red flag exists or more than
three required fields are missing; and a record whose AML section carries
`is_pep: true` always yields a non-empty red-flag list and `is_valid =
false`, whatever its financial figures. -/
theorem claim_C2_is_valid :
    (∀ (cy : Int) (data : Dict) (ft : String) (r1 : ValidationResult) (d1 : Dict),
      validate cy data ft = .ok (r1, d1) →
      (r1.is_valid = false ↔ (r1.red_flags ≠ [] ∨ 3 < r1.missing_required.length))) ∧
    (∀ (cy : Int) (data : Dict) (ft : String) (r1 : ValidationResult) (d1 : Dict),
      validate cy data ft = .ok (r1, d1) →
      getNestedKeys (.dict data) ["aml", "is_pep"] = .bool true →
      r1.red_flags ≠ [] ∧ r1.is_valid = false) := by
  have part1 : ∀ (cy : Int) (data : Dict) (ft : String) (r1 : ValidationResult) (d1 : Dict),
      validate cy data ft = .ok (r1, d1) →
      (r1.is_valid = false ↔ (r1.red_flags ≠ [] ∨ 3 < r1.missing_required.length)) := by
    intro cy data ft r1 d1 h
    obtain ⟨rB, dB, rS, rA, rC, -, -, -, -, -, hr1⟩ := validate_stages cy data ft r1 d1 h
    subst hr1
    by_cases hr : rC.red_flags.length = 0 <;> by_cases hm : rC.missing_required.length ≤ 3 <;>
      simp_all [List.length_eq_zero, not_lt, not_le]
  have part2 : ∀ (cy : Int) (data : Dict) (ft : String) (r1 : ValidationResult) (d1 : Dict),
      validate cy data ft = .ok (r1, d1) →
      getNestedKeys (.dict data) ["aml", "is_pep"] = .bool true →
      r1.red_flags ≠ [] ∧ r1.is_valid = false := by
    intro cy data ft r1 d1 h hpep
    obtain ⟨es, hes, hpe⟩ := aml_section_of_pep data hpep
    obtain ⟨rB, dB, rS, rA, rC, h1, -, h3, h4, -, hr1⟩ := validate_stages cy data ft r1 d1 h
    have hfr : dGetD dB "aml" (.dict []) = .dict es := by
      rw [dGetD, determineExemption_frame data _ (rB, dB) h1 "aml" (by decide)]
      rw [dGetD] at hes
      exact hes
    have hared : rA.red_flags ≠ [] := by
      rw [checkAmlFlags, hfr] at h3
      exact amlCore_pep_red es _ rS rA hpe h3
    have hcred : rC.red_flags = rA.red_flags := by
      rw [checkConcentration] at h4
      exact concentrationCore_red _ _ rA rC h4
    have hred : rC.red_flags ≠ [] := by rw [hcred]; exact hared
    subst hr1
    refine ⟨hred, ?_⟩
    have : rC.red_flags.length ≠ 0 := by
      simpa [List.length_eq_zero] using hred
    simp [this]
  exact ⟨part1, part2⟩

/-- C3: `follow_up_needed` is true exactly when a red flag exists, more than
three required fields are missing, or a suitability concern exists; warnings
alone never set it. -/
theorem claim_C3_follow_up (cy : Int) (data : Dict) (ft : String) (r1 : ValidationResult)
    (d1 : Dict) (h : validate cy data ft = .ok (r1, d1)) :
    r1.follow_up_needed = true ↔
      (r1.red_flags ≠ [] ∨ 3 < r1.missing_required.length ∨
        r1.suitability_concerns ≠ []) := by
  obtain ⟨rB, dB, rS, rA, rC, -, -, -, -, -, hr1⟩ := validate_stages cy data ft r1 d1 h
  subst hr1
  by_cases hr : rC.red_flags.length = 0 <;> by_cases hm : rC.missing_required.length ≤ 3 <;>
    by_cases hs : rC.suitability_concerns.length = 0 <;>
      simp_all [List.length_eq_zero, not_lt, not_le, List.length_pos]

def pepRec : Dict := [("aml", Value.dict [("is_pep", Value.bool true)])]

def pepOut : ValidationResult :=
  { is_valid := false, exemption_status := "NON_ELIGIBLE",
    red_flags := ["Client is a Politically Exposed Person: position unknown"],
    warnings := [minimumAmountWarning],
    missing_required := REQUIRED_FIELDS "individual",
    suitability_concerns := [], follow_up_needed := true }

def pepMut : Dict :=
  [("aml", Value.dict [("is_pep", Value.bool true)]),
   ("exemption_status", Value.dict [("is_accredited", Value.bool false),
     ("is_eligible", Value.bool false), ("accreditation_reason", Value.null)])]

theorem claim_C2_witness :
    validate 2026 pepRec "individual" = .ok (pepOut, pepMut) ∧
    getNestedKeys (.dict pepRec) ["aml", "is_pep"] = .bool true ∧
    (pepOut.is_valid = false ↔ (pepOut.red_flags ≠ [] ∨ 3 < pepOut.missing_required.length)) ∧
    pepOut.red_flags ≠ [] ∧ pepOut.is_valid = false := by
  have hok : validate 2026 pepRec "individual" = .ok (pepOut, pepMut) := by rfl
  have h2 := claim_C2_is_valid.2 2026 pepRec "individual" pepOut pepMut hok rfl
  exact ⟨hok, rfl, claim_C2_is_valid.1 2026 pepRec "individual" pepOut pepMut hok, h2.1, h2.2⟩

def w3rec : Dict := [("investment_profile", Value.dict
  [("investment_objective", Value.str "GROWTH"), ("risk_tolerance", Value.str "LOW")])]

theorem claim_C3_witness :
    (∃ r1 d1, validate 2026 w3rec "individual" = .ok (r1, d1) ∧
      (r1.follow_up_needed = true ↔
        (r1.red_flags ≠ [] ∨ 3 < r1.missing_required.length ∨
          r1.suitability_concerns ≠ [])) ∧
      r1.follow_up_needed = true ∧ r1.red_flags = [] ∧
      r1.suitability_concerns ≠ []) := by
  refine ⟨_, _, rfl, claim_C3_follow_up 2026 w3rec "individual" _ _ rfl, ?_, ?_, ?_⟩
  · rfl
  · rfl
  · decide

end KYCValidator

namespace KYCValidator

/-! ### Claim C10: the frame property of validate -/

/-- `_determine_exemption`'s write-back leaves an `exemption_status` dict
holding the three written fields. -/
theorem determineExemption_writes (data : Dict) (r : ValidationResult)
    (rd : ValidationResult × Dict) (h : determineExemption data r = .ok rd) :
    ∃ es, dictFind? rd.2 "exemption_status" = some (.dict es) ∧
      (dictFind? es "is_accredited").isSome = true ∧
      (dictFind? es "is_eligible").isSome = true ∧
      (dictFind? es "accreditation_reason").isSome = true := by
  rw [determineExemption] at h
  rcases except_bind_ok h with ⟨⟨r2, acc, elig, rsn⟩, -, h⟩
  split at h
  split at h <;> dsimp only [] at h <;> split at h <;>
    first
    | simp at h
    | · simp only [pure_eq_ok, Except.ok.injEq] at h
        subst h
        refine ⟨_, dictFind?_dictSet_self _ _ _, ?_, ?_, ?_⟩
        · rw [dictFind?_dictSet_other _ _ _ _ (by decide),
            dictFind?_dictSet_other _ _ _ _ (by decide), dictFind?_dictSet_self]
          rfl
        · rw [dictFind?_dictSet_other _ _ _ _ (by decide), dictFind?_dictSet_self]
          rfl
        · rw [dictFind?_dictSet_self]
          rfl

/-- C10: when `validate` returns normally, the only part of the record it has
modified is the top-level `exemption_status` section, where it wrote
`is_accredited`, `is_eligible` and `accreditation_reason`; every other
top-level key is bound to exactly the value it had before the call. -/
theorem claim_C10_frame (cy : Int) (data : Dict) (ft : String) (r1 : ValidationResult)
    (d1 : Dict) (h : validate cy data ft = .ok (r1, d1)) :
    (∀ k, k ≠ "exemption_status" → dictFind? d1 k = dictFind? data k) ∧
    ∃ es, dictFind? d1 "exemption_status" = some (.dict es) ∧
      (dictFind? es "is_accredited").isSome = true ∧
      (dictFind? es "is_eligible").isSome = true ∧
      (dictFind? es "accreditation_reason").isSome = true := by
  obtain ⟨rB, dB, rS, rA, rC, h1, -, -, -, hd, -⟩ := validate_stages cy data ft r1 d1 h
  subst hd
  exact ⟨determineExemption_frame data _ (rB, d1) h1,
    determineExemption_writes data _ (rB, d1) h1⟩

def w10rec : Dict := [("personal", Value.dict [("dob", Value.str "1990-01-01")])]

def w10out : ValidationResult :=
  { is_valid := false, exemption_status := "NON_ELIGIBLE", red_flags := [],
    warnings := [minimumAmountWarning],
    missing_required := ["client_name.first", "client_name.last", "address.city",
      "address.province", "contact.email", "employment.occupation",
      "financials.annual_income", "financials.net_financial_assets",
      "investment_profile.risk_tolerance", "investment_profile.time_horizon",
      "investment_profile.investment_objective"],
    suitability_concerns := [], follow_up_needed := true }

def w10mut : Dict :=
  [("personal", Value.dict [("dob", Value.str "1990-01-01")]),
   ("exemption_status", Value.dict [("is_accredited", Value.bool false),
     ("is_eligible", Value.bool false), ("accreditation_reason", Value.null)])]

theorem claim_C10_witness :
    validate 2026 w10rec "individual" = .ok (w10out, w10mut) ∧
    dictFind? w10mut "personal" = dictFind? w10rec "personal" ∧
    (∃ es, dictFind? w10mut "exemption_status" = some (.dict es) ∧
      (dictFind? es "is_accredited").isSome = true ∧
      (dictFind? es "is_eligible").isSome = true ∧
      (dictFind? es "accreditation_reason").isSome = true) := by
  have hok : validate 2026 w10rec "individual" = .ok (w10out, w10mut) := by rfl
  obtain ⟨hframe, hwrites⟩ := claim_C10_frame 2026 w10rec "individual" w10out w10mut hok
  exact ⟨hok, hframe "personal" (by decide), hwrites⟩

end KYCValidator

namespace KYCValidator

/-! ### Claim C4: totality of the orchestrator -/

theorem isOk_bind_eq {α β : Type} {m : Except String α} {g : α → Except String β} {v : α}
    (hm : m = .ok v) (hg : ∃ w, g v = .ok w) : ∃ w, (m >>= g) = .ok w := by
  subst hm
  exact hg

theorem isOk_ite' (c : Prop) [Decidable c] {α : Type} {a b : Except String α}
    (ha : c → ∃ x, a = .ok x) (hb : ¬c → ∃ x, b = .ok x) :
    ∃ x, (if c then a else b) = .ok x := by
  split_ifs with h
  exacts [ha h, hb h]

def isStr : Value → Bool
  | .str _ => true
  | _ => false

/-- `v` is a string or falsy: the shapes for which the suitability checker's
`dob` handling cannot raise (its `try` does not catch `AttributeError`). -/
def strOrAbsent (v : Value) : Bool := isStr v || !(truthy v)

theorem strOrAbsent_str (v : Value) (h : strOrAbsent v = true) (ht : truthy v = true) :
    ∃ s, v = .str s := by
  unfold strOrAbsent at h
  rcases Bool.or_eq_true_iff.mp h with h' | h'
  · cases v with
    | str s => exact ⟨s, rfl⟩
    | null => exact Bool.noConfusion h'
    | bool b => exact Bool.noConfusion h'
    | num q => exact Bool.noConfusion h'
    | list l => exact Bool.noConfusion h'
    | dict es => exact Bool.noConfusion h'
  · rw [ht] at h'
    exact Bool.noConfusion h'

theorem sectionOk_exists (data : Dict) (k : String) (h : sectionOk data k = true) :
    ∃ es, dGetD data k (.dict []) = .dict es := by
  unfold sectionOk at h
  cases hv : dictFind? data k with
  | none => exact ⟨[], by rw [dGetD, hv, Option.getD_none]⟩
  | some v =>
    rw [hv] at h
    cases v with
    | dict es => exact ⟨es, by rw [dGetD, hv, Option.getD_some]⟩
    | null => exact Bool.noConfusion h
    | bool b => exact Bool.noConfusion h
    | num q => exact Bool.noConfusion h
    | str s => exact Bool.noConfusion h
    | list l => exact Bool.noConfusion h

/-- The value of field `k` of section `s` (the empty-dict default of the
source's `data.get(section, ...)` built in). -/
def secField (data : Dict) (s k : String) : Value :=
  match dGetD data s (.dict []) with
  | .dict es => dGetD es k .null
  | _ => .null

theorem secField_eq {data : Dict} {s : String} {es : Dict}
    (h : dGetD data s (.dict []) = .dict es) (k : String) :
    secField data s k = dGetD es k .null := by
  unfold secField
  rw [h]

theorem exWriteBack_dGetD_other (data : Dict) (acc elig : Bool) (reason : Option String)
    (k : String) (d : Value) (hk : k ≠ "exemption_status") :
    dGetD (exWriteBack data acc elig reason) k d = dGetD data k d := by
  rw [dGetD, exWriteBack_find_other _ _ _ _ _ hk, dGetD]

set_option maxRecDepth 2000 in
set_option maxHeartbeats 800000 in
/-- The suitability checker cannot raise when the profile and personal
sections are dicts, the planned retirement year is numeric or falsy, and the
date of birth is a string or falsy. -/
theorem suitabilityCore_ok (cy : Int) (ps pe : Dict) (r : ValidationResult)
    (hrv : numOrAbsent (dGetD ps "planned_retirement_year" .null) = true)
    (hdob : strOrAbsent (dGetD pe "dob" .null) = true) :
    ∃ r2, suitabilityCore cy (.dict ps) (.dict pe) r = .ok r2 := by
  rw [suitabilityCore]
  refine isOk_bind_eq rfl ?_
  refine isOk_bind_eq rfl ?_
  refine isOk_bind_eq rfl ?_
  refine isOk_bind_eq rfl ?_
  refine isOk_bind_eq rfl ?_
  dsimp only []
  refine isOk_ite' _ (fun htr => ?_) (fun _ => ?_)
  have hs : (asNum? (dGetD ps "planned_retirement_year" Value.null)).isSome = true := by
    unfold numOrAbsent at hrv
    rcases Bool.or_eq_true_iff.mp hrv with h' | h'
    · exact h'
    · rw [htr] at h'
      exact Bool.noConfusion h'
  obtain ⟨q, hq⟩ := Option.isSome_iff_exists.mp hs
  refine isOk_bind_eq (pySub_of_num hq rfl) ?_
  refine isOk_ite' _ (fun _ => ?_) (fun _ => ?_)
  refine isOk_bind_eq (pyLT_num_num _ _) ?_
  refine isOk_ite' _ (fun _ => ?_) (fun _ => ?_)
  all_goals refine isOk_bind_eq rfl ?_
  all_goals refine isOk_bind_eq rfl ?_
  all_goals refine isOk_ite' _ (fun htd => ?_) (fun _ => ⟨_, rfl⟩)
  all_goals obtain ⟨s, hsv⟩ := strOrAbsent_str _ hdob htd
  all_goals rw [hsv]
  all_goals dsimp only []
  all_goals cases hpi : pyIntOfString ((splitCh '-' s).headD "") <;> exact ⟨_, rfl⟩

set_option maxRecDepth 2000 in
set_option maxHeartbeats 800000 in
/-- The AML screener cannot raise when both sections are dicts and the NFA
figure is numeric or falsy. -/
theorem amlCore_ok (ams fs : Dict) (r : ValidationResult)
    (hn : numOrAbsent (dGetD fs "net_financial_assets" .null) = true) :
    ∃ r2, amlCore (.dict ams) (.dict fs) r = .ok r2 := by
  rw [amlCore]
  refine isOk_bind_eq rfl ?_
  dsimp only []
  refine isOk_ite' _ (fun _ => ?_) (fun _ => ?_)
  · refine isOk_bind_eq rfl ?_
    refine isOk_bind_eq rfl ?_
    refine isOk_bind_eq rfl ?_
    refine isOk_bind_eq rfl ?_
    refine isOk_bind_eq rfl ?_
    refine isOk_bind_eq (pyGE_of_num (numOrAbsent_asNum _ hn) 1000000) ?_
    exact isOk_ite' _ (fun _ => ⟨_, rfl⟩) (fun _ => ⟨_, rfl⟩)
  · refine isOk_bind_eq rfl ?_
    refine isOk_bind_eq rfl ?_
    refine isOk_bind_eq rfl ?_
    refine isOk_bind_eq rfl ?_
    refine isOk_bind_eq (pyGE_of_num (numOrAbsent_asNum _ hn) 1000000) ?_
    exact isOk_ite' _ (fun _ => ⟨_, rfl⟩) (fun _ => ⟨_, rfl⟩)

/-- The record shapes on which `validate` is total: each section, when
present, is a dict; the four exemption figures, the retirement year and the
investment amount are numeric or falsy; the date of birth is a string or
falsy; an `exemption_status` slot, when present, is a dict. -/
def wellFormed (data : Dict) : Bool :=
  sectionOk data "financials" && sectionOk data "investment_profile" &&
  sectionOk data "personal" && sectionOk data "aml" &&
  sectionOk data "investment_details" && sectionOk data "exemption_status" &&
  numOrAbsent (secField data "financials" "annual_income") &&
  numOrAbsent (secField data "financials" "spouse_income") &&
  numOrAbsent (secField data "financials" "net_financial_assets") &&
  numOrAbsent (secField data "financials" "net_worth") &&
  numOrAbsent (secField data "investment_profile" "planned_retirement_year") &&
  strOrAbsent (secField data "personal" "dob") &&
  numOrAbsent (secField data "investment_details" "amount")

theorem validate_total (cy : Int) (data : Dict) (ft : String)
    (hwf : wellFormed data = true) : ∃ out, validate cy data ft = .ok out := by
  simp only [wellFormed, Bool.and_eq_true] at hwf
  obtain ⟨⟨⟨⟨⟨⟨⟨⟨⟨⟨⟨⟨hS1, hS2⟩, hS3⟩, hS4⟩, hS5⟩, hS6⟩, h7⟩, h8⟩, h9⟩, h10⟩, h11⟩,
    h12⟩, h13⟩ := hwf
  obtain ⟨fse, hfse⟩ := sectionOk_exists _ _ hS1
  obtain ⟨pse, hpse⟩ := sectionOk_exists _ _ hS2
  obtain ⟨pee, hpee⟩ := sectionOk_exists _ _ hS3
  obtain ⟨ase, hase⟩ := sectionOk_exists _ _ hS4
  obtain ⟨ise, hise⟩ := sectionOk_exists _ _ hS5
  rw [secField_eq hfse] at h7 h8 h9 h10
  rw [secField_eq hpse] at h11
  rw [secField_eq hpee] at h12
  rw [secField_eq hise] at h13
  have hDE := determineExemption_spec data (checkRequiredFields data ft {}) fse hfse
    h7 h8 h9 h10 hS6
  have hfrF : dGetD (exWriteBack data (accSpec fse) (eligSpec fse) (reasonSpec fse))
      "financials" (.dict []) = .dict fse := by
    rw [exWriteBack_dGetD_other _ _ _ _ _ _ (by decide), hfse]
  have hfrP : dGetD (exWriteBack data (accSpec fse) (eligSpec fse) (reasonSpec fse))
      "investment_profile" (.dict []) = .dict pse := by
    rw [exWriteBack_dGetD_other _ _ _ _ _ _ (by decide), hpse]
  have hfrPe : dGetD (exWriteBack data (accSpec fse) (eligSpec fse) (reasonSpec fse))
      "personal" (.dict []) = .dict pee := by
    rw [exWriteBack_dGetD_other _ _ _ _ _ _ (by decide), hpee]
  have hfrA : dGetD (exWriteBack data (accSpec fse) (eligSpec fse) (reasonSpec fse))
      "aml" (.dict []) = .dict ase := by
    rw [exWriteBack_dGetD_other _ _ _ _ _ _ (by decide), hase]
  have hfrI : dGetD (exWriteBack data (accSpec fse) (eligSpec fse) (reasonSpec fse))
      "investment_details" (.dict []) = .dict ise := by
    rw [exWriteBack_dGetD_other _ _ _ _ _ _ (by decide), hise]
  obtain ⟨rS, hSuit⟩ := suitabilityCore_ok cy pse pee
    (exemptionResultSpec fse (checkRequiredFields data ft {})) h11 h12
  obtain ⟨rA, hAml⟩ := amlCore_ok ase fse rS h9
  have hConc := concentrationCore_spec fse ise rA h9 h13
  have hSuit' : checkSuitability cy
      (exWriteBack data (accSpec fse) (eligSpec fse) (reasonSpec fse))
      (exemptionResultSpec fse (checkRequiredFields data ft {})) = .ok rS := by
    rw [checkSuitability, hfrP, hfrPe]
    exact hSuit
  have hAml' : checkAmlFlags
      (exWriteBack data (accSpec fse) (eligSpec fse) (reasonSpec fse)) rS = .ok rA := by
    rw [checkAmlFlags, hfrA, hfrF]
    exact hAml
  have hConc' : checkConcentration
      (exWriteBack data (accSpec fse) (eligSpec fse) (reasonSpec fse)) rA =
      .ok (concentrationResultSpec (nfaOf fse) (amountOf ise) rA) := by
    rw [checkConcentration, hfrF, hfrI]
    exact hConc
  rw [validate]
  refine isOk_bind_eq hDE ?_
  dsimp only []
  refine isOk_bind_eq hSuit' ?_
  refine isOk_bind_eq hAml' ?_
  refine isOk_bind_eq hConc' ?_
  exact ⟨_, rfl⟩

def emptyReport : ValidationResult :=
  { is_valid := false, exemption_status := "NON_ELIGIBLE", red_flags := [],
    warnings := [minimumAmountWarning], missing_required := REQUIRED_FIELDS "individual",
    suitability_concerns := [], follow_up_needed := true }

def emptyMutated : Dict :=
  [("exemption_status", Value.dict [("is_accredited", Value.bool false),
    ("is_eligible", Value.bool false), ("accreditation_reason", Value.null)])]

/-- C4, counterexample: the claim's totality fails on the code for records of
unexpected type — a record whose `financials` section is an explicit `None`
makes `validate` raise `AttributeError` inside `_determine_exemption`
(`financials.get("annual_income")` on `None`), because
`data.get("financials", ...)` returns the stored `None`, not the default. -/
theorem claim_C4_counterexample :
    validate 2026 [("financials", Value.null)] "individual" = .error attrGetMsg := rfl

/-- C4 (amended): `validate` returns a report without raising for every
record whose sections, when present, are keyed structures, whose numeric
fields (financial figures, retirement year, investment amount) are numbers
or absent/falsy, and whose date of birth is a string or absent/falsy; in
particular, for the entirely absent record it yields tier NON_ELIGIBLE,
every required individual field missing, and no red flags. -/
theorem claim_C4_total_on_wellformed :
    (∀ (cy : Int) (data : Dict) (ft : String), wellFormed data = true →
      ∃ out, validate cy data ft = .ok out) ∧
    (∀ cy : Int, validate cy [] "individual" = .ok (emptyReport, emptyMutated)) :=
  ⟨validate_total, fun _ => rfl⟩

def c4sample : Dict :=
  [("client_name", Value.dict [("first", Value.str "Ivan"), ("last", Value.str "Petrenko")]),
   ("personal", Value.dict [("dob", Value.str "1980-01-15")]),
   ("financials", Value.dict [("annual_income", Value.num 180000),
     ("spouse_income", Value.num 80000), ("net_financial_assets", Value.num 500000),
     ("net_worth", Value.num 1300000), ("income_stable_2_years", Value.bool true)]),
   ("investment_profile", Value.dict [("risk_tolerance", Value.str "MODERATE"),
     ("time_horizon", Value.str "10+"),
     ("investment_objective", Value.str "GROWTH_AND_INCOME")]),
   ("investment_details", Value.dict [("amount", Value.num 75000)]),
   ("aml", Value.dict [("is_pep", Value.bool false)])]

theorem claim_C4_witness :
    wellFormed c4sample = true ∧
    (∃ out, validate 2026 c4sample "individual" = .ok out) ∧
    validate 2026 [] "individual" = .ok (emptyReport, emptyMutated) :=
  ⟨rfl, claim_C4_total_on_wellformed.1 2026 c4sample "individual" rfl,
   claim_C4_total_on_wellformed.2 2026⟩

end KYCValidator

namespace KYCValidator

/-! ### Claim C9: running the orchestrator again on the mutated record -/

theorem getNestedKeys_exWriteBack (data : Dict) (acc elig : Bool) (reason : Option String)
    (k : String) (ks : List String) (hk : k ≠ "exemption_status") :
    getNestedKeys (.dict (exWriteBack data acc elig reason)) (k :: ks) =
      getNestedKeys (.dict data) (k :: ks) := by
  show getNestedKeys (dGetD (exWriteBack data acc elig reason) k .null) ks =
    getNestedKeys (dGetD data k .null) ks
  rw [dGetD, dGetD, exWriteBack_find_other _ _ _ _ _ hk]

/-- No required path starts at `exemption_status`, so the write-back never
changes `_check_required_fields`. -/
theorem checkRequiredFields_exWriteBack (data : Dict) (acc elig : Bool)
    (reason : Option String) (ft : String) (r : ValidationResult) :
    checkRequiredFields (exWriteBack data acc elig reason) ft r =
      checkRequiredFields data ft r := by
  have hval : ∀ p ∈ REQUIRED_FIELDS ft,
      getNested (.dict (exWriteBack data acc elig reason)) p = getNested (.dict data) p := by
    intro p hp
    unfold REQUIRED_FIELDS at hp
    split_ifs at hp
    · fin_cases hp <;> exact getNestedKeys_exWriteBack _ _ _ _ _ _ (by decide)
    · fin_cases hp <;> exact getNestedKeys_exWriteBack _ _ _ _ _ _ (by decide)
    · fin_cases hp <;> exact getNestedKeys_exWriteBack _ _ _ _ _ _ (by decide)
    · exact absurd hp (List.not_mem_nil p)
  unfold checkRequiredFields
  have hfil : (REQUIRED_FIELDS ft).filter (fun p =>
      let value := getNested (.dict (exWriteBack data acc elig reason)) p
      isNone value || pyEq value (.str "")) =
    (REQUIRED_FIELDS ft).filter (fun p =>
      let value := getNested (.dict data) p
      isNone value || pyEq value (.str "")) := by
    refine List.filter_congr ?_
    intro p hp
    dsimp only []
    rw [hval p hp]
  rw [hfil]

theorem sectionOk_exWriteBack (data : Dict) (acc elig : Bool) (reason : Option String) :
    sectionOk (exWriteBack data acc elig reason) "exemption_status" = true := by
  unfold sectionOk
  rw [exWriteBack_find_self]

/-- Writing the same exemption verdict a second time leaves the record
unchanged: the section already exists and each of its three entries already
holds the value being stored. -/
theorem exWriteBack_idem (data : Dict) (acc elig : Bool) (reason : Option String) :
    exWriteBack (exWriteBack data acc elig reason) acc elig reason =
      exWriteBack data acc elig reason := by
  set E := exWriteBack data acc elig reason with hE
  have hfind : dictFind? E "exemption_status" =
      some (.dict (dictSet (dictSet (dictSet (exSection data) "is_accredited" (.bool acc))
        "is_eligible" (.bool elig)) "accreditation_reason" (reasonValue reason))) := by
    rw [hE]
    exact exWriteBack_find_self data acc elig reason
  have hsec : exSection E = dictSet (dictSet (dictSet (exSection data) "is_accredited"
      (.bool acc)) "is_eligible" (.bool elig)) "accreditation_reason" (reasonValue reason) := by
    unfold exSection
    rw [hfind]
    rfl
  rw [exWriteBack, hfind, hsec]
  simp only [Option.isSome_some, if_true]
  have n1 : ("is_accredited" : String) ≠ "accreditation_reason" := by decide
  have n2 : ("is_eligible" : String) ≠ "accreditation_reason" := by decide
  have n3 : ("is_accredited" : String) ≠ "is_eligible" := by decide
  have e1 : dictSet (dictSet (dictSet (dictSet (exSection data) "is_accredited" (.bool acc))
      "is_eligible" (.bool elig)) "accreditation_reason" (reasonValue reason))
      "is_accredited" (.bool acc) =
      dictSet (dictSet (dictSet (exSection data) "is_accredited" (.bool acc))
        "is_eligible" (.bool elig)) "accreditation_reason" (reasonValue reason) := by
    refine dictSet_eq_of_find _ _ _ ?_
    rw [dictFind?_dictSet_other _ _ _ _ n1, dictFind?_dictSet_other _ _ _ _ n3,
      dictFind?_dictSet_self]
  rw [e1]
  have e2 : dictSet (dictSet (dictSet (dictSet (exSection data) "is_accredited" (.bool acc))
      "is_eligible" (.bool elig)) "accreditation_reason" (reasonValue reason))
      "is_eligible" (.bool elig) =
      dictSet (dictSet (dictSet (exSection data) "is_accredited" (.bool acc))
        "is_eligible" (.bool elig)) "accreditation_reason" (reasonValue reason) := by
    refine dictSet_eq_of_find _ _ _ ?_
    rw [dictFind?_dictSet_other _ _ _ _ n2, dictFind?_dictSet_self]
  rw [e2]
  rw [dictSet_eq_of_find _ _ _ (dictFind?_dictSet_self _ _ _)]
  exact dictSet_eq_of_find _ _ _ hfind

/-- C9: the orchestrator is idempotent across its own self-mutation.  For
every record whose financials section is a dict of numeric-or-absent figures
and whose `exemption_status` slot (when present) is a dict, a second call on
the record written back by a successful first call returns the very same
report and record — in particular the same exemption tier
(`exemption_status`) and the same stored accreditation reason string. -/
theorem claim_C9_idempotent (cy : Int) (data : Dict) (ft : String) (fs : Dict)
    (r1 : ValidationResult) (d1 : Dict)
    (hfs : dGetD data "financials" (.dict []) = .dict fs)
    (h1 : numOrAbsent (dGetD fs "annual_income" .null) = true)
    (h2 : numOrAbsent (dGetD fs "spouse_income" .null) = true)
    (h3 : numOrAbsent (dGetD fs "net_financial_assets" .null) = true)
    (h4 : numOrAbsent (dGetD fs "net_worth" .null) = true)
    (h5 : sectionOk data "exemption_status" = true)
    (hv : validate cy data ft = .ok (r1, d1)) :
    validate cy d1 ft = .ok (r1, d1) := by
  obtain ⟨rB, dB, rS, rA, rC, hB, hS, hA, hC, hd, hr⟩ := validate_stages cy data ft r1 d1 hv
  subst hd
  have hDE := determineExemption_spec data (checkRequiredFields data ft {}) fs hfs h1 h2 h3 h4 h5
  rw [hB] at hDE
  simp only [Except.ok.injEq, Prod.mk.injEq] at hDE
  obtain ⟨hrB, hdB⟩ := hDE
  subst hdB
  have hfs2 : dGetD (exWriteBack data (accSpec fs) (eligSpec fs) (reasonSpec fs))
      "financials" (.dict []) = .dict fs := by
    rw [exWriteBack_dGetD_other _ _ _ _ _ _ (by decide), hfs]
  have hDE2 : determineExemption (exWriteBack data (accSpec fs) (eligSpec fs) (reasonSpec fs))
      (checkRequiredFields data ft {}) =
      .ok (rB, exWriteBack data (accSpec fs) (eligSpec fs) (reasonSpec fs)) := by
    rw [determineExemption_spec _ _ fs hfs2 h1 h2 h3 h4 (sectionOk_exWriteBack _ _ _ _),
      exWriteBack_idem, ← hrB]
  rw [validate]
  try dsimp only []
  rw [checkRequiredFields_exWriteBack, hDE2]
  simp only [bind_ok_rfl]
  try dsimp only []
  rw [hS]
  simp only [bind_ok_rfl]
  rw [hA]
  simp only [bind_ok_rfl]
  rw [hC]
  simp only [bind_ok_rfl, pure_eq_ok]
  rw [hr]

def w9fs : Dict :=
  [("annual_income", Value.num 250000), ("income_stable_2_years", Value.bool true)]

def w9data : Dict := [("financials", Value.dict w9fs)]

def w9report : ValidationResult :=
  { is_valid := false, exemption_status := "ACCREDITED", red_flags := [], warnings := [],
    missing_required :=
      ["client_name.first", "client_name.last", "address.city", "address.province",
       "contact.email", "personal.dob", "employment.occupation",
       "financials.net_financial_assets", "investment_profile.risk_tolerance",
       "investment_profile.time_horizon", "investment_profile.investment_objective"],
    suitability_concerns := [], follow_up_needed := true }

def w9mutated : Dict :=
  [("financials", Value.dict w9fs),
   ("exemption_status", Value.dict [("is_accredited", Value.bool true),
     ("is_eligible", Value.bool false),
     ("accreditation_reason", Value.str "Annual income $250,000 >= $200,000 for 2 years")])]

theorem claim_C9_witness :
    validate 2026 w9data "individual" = .ok (w9report, w9mutated) ∧
    validate 2026 w9mutated "individual" = .ok (w9report, w9mutated) :=
  ⟨rfl, claim_C9_idempotent 2026 w9data "individual" w9fs w9report w9mutated
    rfl rfl rfl rfl rfl rfl rfl⟩

end KYCValidator
